import Mathlib

/-!
# Verification of the SSO indicator computation engine

Shallow embedding of the indicator computation core of the
SSO-REACTIVOS-Y-PROACTIVOS repository:

* `modules/reactive_engine.py` (`ReactiveAnalyzer`),
* `modules/proactive_engine.py` (`ProactiveCalculator`),
* `modules/validator.py` (`DataValidator`),
* the shared safe-division primitive (also in `modules/calculator.py`).

Modelling conventions:

* Python floats are modelled by exact rationals `ℚ`.  A pandas cell that may
  be NaN / missing is modelled as `Option ℚ`, with `none` standing for NaN.
  Float overflow to infinity cannot occur in exact arithmetic, so the
  `np.isinf` branches of the source are unreachable in this model (a comment
  marks each spot).
* A DataFrame processed by an engine is modelled as a list of typed records
  together with the list of (raw) column names; engine-level schema
  validation only inspects the column-name list, exactly as the source's
  `_validar_columnas` does.
* `DataFrame.sort_values` defaults to `kind='quicksort'`, numpy's
  *unstable* introsort.  Where tie order is observable — the final sort of
  `_insertar_resúmenes`, whose quarter rows (rank `quarter*3` = 3, 6, 9, 12)
  tie with the first month of the following quarter — the sort is modelled
  by a transcription of numpy's argsort introsort (`np_argsort` below,
  from numpy `npysort/quicksort.c.src`, `aquicksort`).  The month sort of
  `_preparar_datos_base` is modelled by the stable `List.mergeSort`: every
  claim about it concerns only row membership or the full-calendar case,
  where the twelve ranks are distinct, so every comparison sort agrees
  (and numpy itself runs its stable insertion-sort path on up to 16
  elements).
* The engines' `self.df_...` attributes (mutable caches written by
  `procesar`) are modelled by explicit state records threaded through
  `procesar`.
-/

/-- `ReactiveAnalyzer._safe_divide` = `SSOCalculator._safe_divide`:
returns 0.0 when the denominator is 0 or NaN, and when the result is NaN
(i.e. the numerator is NaN); otherwise the quotient.  The `np.isinf` check of
the source is unreachable over exact rationals.  `none` models NaN. -/
def safe_divide (numerador denominador : Option ℚ) : ℚ :=
  match denominador with
  | none => 0
  | some d =>
    if d = 0 then 0
    else
      match numerador with
      | none => 0
      | some n => n / d

/-- pandas `Series.sum` over a numeric column: NaN cells are skipped. -/
def suma_columna (xs : List (Option ℚ)) : ℚ :=
  xs.foldl (fun a x => a + x.getD 0) 0

/-- pandas `Series.mean`: sum divided by count.  On an empty column pandas
yields NaN while `ℚ` gives `0 / 0 = 0`; the engine only takes the mean of a
nonempty quarter, and the annual mean is empty only when the input has no
month rows at all. -/
def media (xs : List ℚ) : ℚ := xs.sum / (xs.length : ℚ)

/-- Python `str.lower()`, modelled character-wise (the identifiers handled
by this system are ASCII, where `Char.toLower` agrees with Python). -/
def minusculas (s : String) : String := ⟨s.data.map Char.toLower⟩

/-- Python `str.strip()`: drop leading and trailing whitespace. -/
def recortar (s : String) : String :=
  ⟨((s.data.dropWhile Char.isWhitespace).reverse.dropWhile
      Char.isWhitespace).reverse⟩

/-- Column-name normalisation applied by both engines and the validator:
`col.lower().strip().replace(' ', '_')` (the pattern is the single space
character, so `replace` is a character map). -/
def normalizar_col (c : String) : String :=
  ⟨(recortar (minusculas c)).data.map (fun ch => if ch = ' ' then '_' else ch)⟩

/-- Month-name normalisation: `str.lower().str.strip()`. -/
def normalizar_mes (s : String) : String := recortar (minusculas s)

/-!
## numpy's argsort quicksort

`DataFrame.sort_values(column)` with the default `kind='quicksort'` argsorts
the key column with numpy's introsort (`aquicksort` in
`npysort/quicksort.c.src`) and takes the rows in that index order.  The
algorithm is transcribed below over a list `ts` of indices and a constant
key list `v` (`LT` on keys only — ties are *not* broken by index, so the
sort is not stable): median-of-three pivot parked at `pr-1`, Hoare-style
partition, the larger partition pushed on an explicit stack, segments of at
most `SMALL_QUICKSORT` elements finished by a stable insertion sort, and a
depth-limited fallback to `aheapsort`.  The C loops become structural
recursion on a fuel argument; every fuel bound passed below exceeds the
loop's iteration count, so exhaustion is unreachable.
-/

/-- numpy `SMALL_QUICKSORT`: segments of at most this length are finished
by insertion sort. -/
def SMALL_QUICKSORT : ℕ := 15

/-- numpy `npy_get_msb`: index of the most significant bit. -/
def npy_get_msb (n : ℕ) : ℕ := Nat.log2 n

/-- `INTP_SWAP` of two positions of the index list. -/
def swapAt (ts : List ℕ) (i j : ℕ) : List ℕ :=
  (ts.set i (ts.getD j 0)).set j (ts.getD i 0)

/-- The key under position `i` of the index list: `v[ts[i]]`. -/
def clave (v ts : List ℕ) (i : ℕ) : ℕ := v.getD (ts.getD i 0) 0

/-- Inner shift loop of numpy's argsort insertion sort
(`while (pj > pl && LT(vp, v[*pk])) *pj-- = *pk--;` then `*pj = vi`). -/
def ains_shift (v : List ℕ) (pl vp vi : ℕ) : ℕ → ℕ → List ℕ → List ℕ
  | 0, pj, ts => ts.set pj vi
  | fuel + 1, pj, ts =>
    if pl < pj ∧ vp < clave v ts (pj - 1) then
      ains_shift v pl vp vi fuel (pj - 1) (ts.set pj (ts.getD (pj - 1) 0))
    else ts.set pj vi

/-- Outer loop of the insertion sort over positions `pl+1 .. pr`. -/
def ains_outer (v : List ℕ) (pl pr : ℕ) : ℕ → ℕ → List ℕ → List ℕ
  | 0, _, ts => ts
  | fuel + 1, pi, ts =>
    if pi ≤ pr then
      let vi := ts.getD pi 0
      let vp := v.getD vi 0
      ains_outer v pl pr fuel (pi + 1) (ains_shift v pl vp vi pi pi ts)
    else ts

/-- numpy's argsort insertion sort of the segment `[pl, pr]` (stable). -/
def ainsertion_sort (v : List ℕ) (pl pr : ℕ) (ts : List ℕ) : List ℕ :=
  ains_outer v pl pr (pr + 1 - pl) (pl + 1) ts

/-- `do ++pi; while (LT(v[*pi], vp));` — called on `pi+1`. -/
def apart_scan_up (v ts : List ℕ) (vp : ℕ) : ℕ → ℕ → ℕ
  | 0, pi => pi
  | fuel + 1, pi =>
    if clave v ts pi < vp then apart_scan_up v ts vp fuel (pi + 1) else pi

/-- `do --pj; while (LT(vp, v[*pj]));` — called on `pj-1`. -/
def apart_scan_down (v ts : List ℕ) (vp : ℕ) : ℕ → ℕ → ℕ
  | 0, pj => pj
  | fuel + 1, pj =>
    if vp < clave v ts pj then apart_scan_down v ts vp fuel (pj - 1) else pj

/-- The partition exchange loop; returns the array and the final `pi`. -/
def apart_loop (v : List ℕ) (vp nfuel : ℕ) : ℕ → ℕ → ℕ → List ℕ → List ℕ × ℕ
  | 0, pi, _, ts => (ts, pi)
  | fuel + 1, pi, pj, ts =>
    let pi := apart_scan_up v ts vp nfuel (pi + 1)
    let pj := apart_scan_down v ts vp nfuel (pj - 1)
    if pj ≤ pi then (ts, pi)
    else apart_loop v vp nfuel fuel pi pj (swapAt ts pi pj)

/-- One quicksort partition of `[pl, pr]`: median-of-three of `pl`, `pm`,
`pr`, pivot parked at `pr-1`, exchange scan, pivot restored at `pi`. -/
def apartition (v : List ℕ) (nfuel pl pr : ℕ) (ts : List ℕ) : List ℕ × ℕ :=
  let pm := pl + (pr - pl) / 2
  let ts := if clave v ts pm < clave v ts pl then swapAt ts pm pl else ts
  let ts := if clave v ts pr < clave v ts pm then swapAt ts pr pm else ts
  let ts := if clave v ts pm < clave v ts pl then swapAt ts pm pl else ts
  let vp := clave v ts pm
  let ts := swapAt ts pm (pr - 1)
  let par := apart_loop v vp nfuel nfuel pl (pr - 1) ts
  (swapAt par.1 par.2 (pr - 1), par.2)

/-- Sift-down of numpy `aheapsort` on the 1-based window starting at
`base` (window element `k` lives at `ts[base + k - 1]`); `tmp` is the
index being placed, `n` the window size. -/
def aheap_sift (v : List ℕ) (base n tmp : ℕ) : ℕ → ℕ → ℕ → List ℕ → List ℕ
  | 0, i, _, ts => ts.set (base + i - 1) tmp
  | fuel + 1, i, j, ts =>
    if j ≤ n then
      let j := if j < n ∧ clave v ts (base + j - 1) < clave v ts (base + j)
        then j + 1 else j
      if v.getD tmp 0 < clave v ts (base + j - 1) then
        aheap_sift v base n tmp fuel j (j + j)
          (ts.set (base + i - 1) (ts.getD (base + j - 1) 0))
      else ts.set (base + i - 1) tmp
    else ts.set (base + i - 1) tmp

/-- Heap construction phase of `aheapsort` (`l` from `n/2` down to 1). -/
def aheap_build (v : List ℕ) (base n : ℕ) : ℕ → ℕ → List ℕ → List ℕ
  | 0, _, ts => ts
  | fuel + 1, l, ts =>
    if 0 < l then
      aheap_build v base n fuel (l - 1)
        (aheap_sift v base n (ts.getD (base + l - 1) 0) (n + 1) l (l + l) ts)
    else ts

/-- Extraction phase of `aheapsort`. -/
def aheap_extract (v : List ℕ) (base : ℕ) : ℕ → ℕ → List ℕ → List ℕ
  | 0, _, ts => ts
  | fuel + 1, n, ts =>
    if 1 < n then
      let tmp := ts.getD (base + n - 1) 0
      let ts := ts.set (base + n - 1) (ts.getD base 0)
      aheap_extract v base fuel (n - 1) (aheap_sift v base (n - 1) tmp n 1 2 ts)
    else ts

/-- numpy `aheapsort` of the segment `[pl, pr]` (the introsort's
depth-limit fallback). -/
def aheapsort (v : List ℕ) (pl pr : ℕ) (ts : List ℕ) : List ℕ :=
  let n := pr + 1 - pl
  aheap_extract v pl n n (aheap_build v pl n (n / 2) (n / 2) ts)

/-- Main loop of numpy `aquicksort`: partition while the segment exceeds
`SMALL_QUICKSORT`, recursing into the smaller part and stacking the larger;
finish small segments by insertion sort and pop the stack; fall back to
heapsort when the depth budget (`2 * msb(num)` partitions) is spent. -/
def aqs_loop (v : List ℕ) (nfuel : ℕ) :
    ℕ → ℕ → ℕ → ℕ → List (ℕ × ℕ) → List ℕ → List ℕ
  | 0, _, _, _, _, ts => ts
  | fuel + 1, depth, pl, pr, stack, ts =>
    if SMALL_QUICKSORT < pr - pl then
      if depth = 0 then
        let ts := aheapsort v pl pr ts
        match stack with
        | [] => ts
        | (pl', pr') :: stack' => aqs_loop v nfuel fuel depth pl' pr' stack' ts
      else
        let par := apartition v nfuel pl pr ts
        let ts := par.1
        let pi := par.2
        if pi - pl < pr - pi then
          aqs_loop v nfuel fuel (depth - 1) pl (pi - 1) ((pi + 1, pr) :: stack) ts
        else
          aqs_loop v nfuel fuel (depth - 1) (pi + 1) pr ((pl, pi - 1) :: stack) ts
    else
      let ts := ainsertion_sort v pl pr ts
      match stack with
      | [] => ts
      | (pl', pr') :: stack' => aqs_loop v nfuel fuel depth pl' pr' stack' ts

/-- numpy `argsort(v, kind='quicksort')`: the index permutation placing the
keys in nondecreasing order, with introsort's tie behaviour. -/
def np_argsort (v : List ℕ) : List ℕ :=
  let num := v.length
  aqs_loop v num (4 * num + 4) (npy_get_msb num * 2 + 1) 0 (num - 1) []
    (List.range num)

/-- pandas `take`: reorder the rows by the argsorted index list. -/
def tomar {α : Type _} (df : List α) (idx : List ℕ) : List α :=
  idx.filterMap df.get?

namespace ReactiveAnalyzer

/-- `ConstantesK.MENSUAL` (200,000 / 12 months, rounded in the source). -/
def K_MENSUAL : ℚ := 16666.67

/-- `ConstantesK.TRIMESTRAL`. -/
def K_TRIMESTRAL : ℚ := 50000

/-- `ConstantesK.ANUAL`. -/
def K_ANUAL : ℚ := 200000

/-- `HORAS_MENSUALES_STD`: standard monthly hours per worker. -/
def HORAS_MENSUALES_STD : ℚ := 173.33

/-- `MESES_ORDEN`: the canonical month calendar. -/
def MESES_ORDEN : List String :=
  ["enero", "febrero", "marzo",
   "abril", "mayo", "junio",
   "julio", "agosto", "septiembre",
   "octubre", "noviembre", "diciembre"]

/-- `TRIMESTRES`: quarter number, display name, constituent months. -/
def TRIMESTRES : List (ℕ × String × List String) :=
  [(1, "PRIMER TRIMESTRE", ["enero", "febrero", "marzo"]),
   (2, "SEGUNDO TRIMESTRE", ["abril", "mayo", "junio"]),
   (3, "TERCER TRIMESTRE", ["julio", "agosto", "septiembre"]),
   (4, "CUARTO TRIMESTRE", ["octubre", "noviembre", "diciembre"])]

/-- `COLUMNAS_REQUERIDAS` of the reactive engine. -/
def COLUMNAS_REQUERIDAS : List String :=
  ["mes", "num_trabajadores", "horas_hombre_mes",
   "acc_baja", "acc_sin_baja", "enf_ocupacionales", "dias_perdidos"]

/-- One raw monthly input record, after the numeric coercion
`pd.to_numeric(..., errors='coerce').fillna(0)` of `_preparar_datos_base`
(a non-numeric or missing cell is already 0 here; `horas_extras` defaults to
0 when the optional column is absent). -/
structure EntradaReactiva where
  mes : String
  num_trabajadores : ℚ
  horas_hombre_mes : ℚ
  acc_baja : ℚ
  acc_sin_baja : ℚ
  enf_ocupacionales : ℚ
  dias_perdidos : ℚ
  horas_extras : ℚ := 0
deriving DecidableEq

/-- One row of the working / report table (month, quarter or annual row). -/
structure Fila where
  mes : String
  num_trabajadores : ℚ
  horas_hombre_mes : ℚ
  horas_extras : ℚ
  acc_baja : ℚ
  acc_sin_baja : ℚ
  enf_ocupacionales : ℚ
  dias_perdidos : ℚ
  total_lesiones : ℚ
  total_horas : ℚ
  IF : ℚ := 0
  IG : ℚ := 0
  TR : ℚ := 0
  tipo_fila : String := ""
  constante_k : ℚ := 0
  mes_orden : ℕ := 99
deriving DecidableEq

/-- Ordering rank of a (normalised) month name: its index in `MESES_ORDEN`,
99 for an unrecognised name. -/
def mes_orden_de (m : String) : ℕ :=
  if m ∈ MESES_ORDEN then MESES_ORDEN.indexOf m else 99

/-- Row-wise part of `_preparar_datos_base`: derived totals, month
normalisation and ordering rank. -/
def preparar_fila (r : EntradaReactiva) : Fila :=
  let mes := normalizar_mes r.mes
  { mes := mes
    num_trabajadores := r.num_trabajadores
    horas_hombre_mes := r.horas_hombre_mes
    horas_extras := r.horas_extras
    acc_baja := r.acc_baja
    acc_sin_baja := r.acc_sin_baja
    enf_ocupacionales := r.enf_ocupacionales
    dias_perdidos := r.dias_perdidos
    total_lesiones := r.acc_baja + r.acc_sin_baja + r.enf_ocupacionales
    total_horas :=
      if r.horas_hombre_mes > 0 then r.horas_hombre_mes
      else r.num_trabajadores * HORAS_MENSUALES_STD + r.horas_extras
    mes_orden := mes_orden_de mes }

/-- `_preparar_datos_base`: derive per-row columns, then
`sort_values('mes_orden')`.  This sort is modelled by the stable
`List.mergeSort`: the claims about it concern only row membership or
full-calendar inputs with twelve distinct ranks, where every comparison
sort produces the same list (numpy itself takes its stable insertion-sort
path for up to 16 rows). -/
def preparar_datos_base (rs : List EntradaReactiva) : List Fila :=
  (rs.map preparar_fila).mergeSort (fun a b => a.mes_orden ≤ b.mes_orden)

/-- Row-wise part of `_calcular_indices_meses`: IF, IG, TR with the monthly
K constant. -/
def calcular_indices_fila (f : Fila) : Fila :=
  { f with
    IF := safe_divide (some (f.total_lesiones * K_MENSUAL)) (some f.total_horas)
    IG := safe_divide (some (f.dias_perdidos * K_MENSUAL)) (some f.total_horas)
    TR := safe_divide (some f.dias_perdidos) (some f.total_lesiones)
    tipo_fila := "mes"
    constante_k := K_MENSUAL }

/-- `_calcular_indices_meses`. -/
def calcular_indices_meses (df : List Fila) : List Fila :=
  df.map calcular_indices_fila

/-- `_crear_fila_resumen`: summary row (quarter or year) for a period:
additive rollup of the raw counts, mean worker count, indices recomputed
with the period's K constant. -/
def crear_fila_resumen (df_periodo : List Fila) (nombre tipo : String)
    (constante_k : ℚ) (orden : ℕ) : Fila :=
  let total_lesiones := (df_periodo.map Fila.total_lesiones).sum
  let total_horas := (df_periodo.map Fila.total_horas).sum
  let dias_perdidos := (df_periodo.map Fila.dias_perdidos).sum
  let num_trabajadores := media (df_periodo.map Fila.num_trabajadores)
  let acc_baja := (df_periodo.map Fila.acc_baja).sum
  let acc_sin_baja := (df_periodo.map Fila.acc_sin_baja).sum
  let enf_ocupacionales := (df_periodo.map Fila.enf_ocupacionales).sum
  { mes := nombre
    num_trabajadores := num_trabajadores
    horas_hombre_mes := total_horas
    horas_extras := (df_periodo.map Fila.horas_extras).sum
    acc_baja := acc_baja
    acc_sin_baja := acc_sin_baja
    enf_ocupacionales := enf_ocupacionales
    dias_perdidos := dias_perdidos
    total_lesiones := total_lesiones
    total_horas := total_horas
    IF := safe_divide (some (total_lesiones * constante_k)) (some total_horas)
    IG := safe_divide (some (dias_perdidos * constante_k)) (some total_horas)
    TR := safe_divide (some dias_perdidos) (some total_lesiones)
    tipo_fila := tipo
    constante_k := constante_k
    mes_orden := orden }

/-- The block of output rows contributed by one quarter inside the fold of
`_insertar_resúmenes`: the quarter's month rows followed by the quarter
summary row when the quarter has at least one month. -/
def bloque_trimestre (df_meses : List Fila) (t : ℕ × String × List String) :
    List Fila :=
  let df_trim := df_meses.filter (fun f => f.mes ∈ t.2.2)
  if 0 < df_trim.length then
    df_trim ++ [crear_fila_resumen df_trim t.2.1 "trimestre" K_TRIMESTRAL (t.1 * 3)]
  else df_trim

/-- `_insertar_resúmenes`: per-quarter blocks, the annual summary row, then
`sort_values('mes_orden')` with pandas' default unstable quicksort,
modelled as numpy's argsort introsort followed by a take.  Tie order is
observable here: each quarter row carries rank `quarter*3` (3, 6, 9, 12),
equal to the rank of the following quarter's first month. -/
def insertar_resumenes (df_meses : List Fila) : List Fila :=
  let filas_resultado :=
    TRIMESTRES.foldl (fun acc t => acc ++ bloque_trimestre df_meses t) []
  let filas_resultado :=
    filas_resultado ++ [crear_fila_resumen df_meses "TOTAL AÑO" "anual" K_ANUAL 99]
  tomar filas_resultado (np_argsort (filas_resultado.map Fila.mes_orden))

/-- `_validar_columnas`: the list of required columns absent from the
(normalised) column list; the source raises `ValueError` naming all of them
when this list is nonempty. -/
def validar_columnas (cols : List String) : List String :=
  COLUMNAS_REQUERIDAS.filter (fun c => c ∉ cols)

/-- The analyzer's mutable attributes (`self.df_reporte`, `self.df_charts`),
written at the end of a successful `procesar` call. -/
structure State where
  df_reporte : Option (List Fila) := none
  df_charts : Option (List Fila) := none

/-- `ReactiveAnalyzer.procesar`: normalise column names, validate the schema
(raising the complete missing-column list), run the pipeline, cache and
return `(df_reporte, df_charts)`. -/
def procesar (st : State) (cols : List String) (rows : List EntradaReactiva) :
    State × Except (List String) (List Fila × List Fila) :=
  let colsN := cols.map normalizar_col
  let faltantes := validar_columnas colsN
  if 0 < faltantes.length then (st, .error faltantes)
  else
    let df_base := preparar_datos_base rows
    let df_meses := calcular_indices_meses df_base
    let df_reporte := insertar_resumenes df_meses
    let df_charts := df_reporte.filter (fun f => f.tipo_fila = "mes")
    ({ df_reporte := some df_reporte, df_charts := some df_charts },
     .ok (df_reporte, df_charts))

end ReactiveAnalyzer

namespace ProactiveCalculator

/-- `META_DEFAULT`. -/
def META_DEFAULT : ℚ := 80

/-- `INDICADORES`: indicator code paired with its weight (`peso`) for
`IG_TOTAL`, in the source's declaration order.  IEF carries weight 0 and is
excluded from the weighting. -/
def PESOS : List (String × ℚ) :=
  [("IART", 5), ("OPAS", 3), ("IDPS", 2), ("IDS", 3),
   ("IENTS", 1), ("IOSEA", 4), ("ICAI", 4), ("IEF", 0)]

/-- `COLUMNAS_REQUERIDAS` of the proactive engine. -/
def COLUMNAS_REQUERIDAS : List String :=
  ["mes",
   "nart_prog", "nart_ejec",
   "opas_prog", "opas_real", "opas_personas_prev", "opas_personas_conf",
   "dps_plan", "dps_real", "dps_previstos", "dps_asistentes",
   "ds_detectadas", "ds_eliminadas",
   "ent_programados", "ent_entrenados",
   "osea_aplicables", "osea_cumplidos",
   "cai_propuestas", "cai_implement",
   "ef_totales", "ef_auditados"]

/-- One raw proactive monthly record after `_preparar_datos`'s coercion
`pd.to_numeric(..., errors='coerce').fillna(0)` (every numeric cell is a
rational; non-numeric cells have already become 0). -/
structure Entrada where
  mes : String
  nart_prog : ℚ
  nart_ejec : ℚ
  opas_prog : ℚ
  opas_real : ℚ
  opas_personas_prev : ℚ
  opas_personas_conf : ℚ
  dps_plan : ℚ
  dps_real : ℚ
  dps_previstos : ℚ
  dps_asistentes : ℚ
  ds_detectadas : ℚ
  ds_eliminadas : ℚ
  ent_programados : ℚ
  ent_entrenados : ℚ
  osea_aplicables : ℚ
  osea_cumplidos : ℚ
  cai_propuestas : ℚ
  cai_implement : ℚ
  ef_totales : ℚ
  ef_auditados : ℚ
deriving DecidableEq

/-- `_calcular_indicador`: percentage ratio, 0 on a zero (or NaN)
denominator, capped at 100.  Over exact rationals the `pd.isna`/`np.isinf`
branches on the result are unreachable. -/
def calcular_indicador (numerador denominador : ℚ) : ℚ :=
  if denominador = 0 then 0
  else min (numerador / denominador * 100) 100

/-- `_calcular_ig_total`: weighted sum over the positive-weight indicator
configs, divided by the sum of those weights.  The row is modelled as in
pandas by a keyed lookup, `row.get(codigo, 0)` becoming `(row c).getD 0`;
`none` is an indicator absent from the row. -/
def calcular_ig_total (row : String → Option ℚ) : ℚ :=
  let p :=
    PESOS.foldl
      (fun acc cfg =>
        if 0 < cfg.2 then (acc.1 + cfg.2 * ((row cfg.1).getD 0), acc.2 + cfg.2)
        else acc)
      ((0 : ℚ), (0 : ℚ))
  if p.2 = 0 then 0 else p.1 / p.2

/-- One output row: the input columns carried through, the ordering rank,
the eight indicator percentages, the weighted composite and the
target-compliance status. -/
structure Resultado where
  entrada : Entrada
  mes_orden : ℕ
  IART : ℚ
  OPAS : ℚ
  IDPS : ℚ
  IDS : ℚ
  IENTS : ℚ
  IOSEA : ℚ
  ICAI : ℚ
  IEF : ℚ
  IG_TOTAL : ℚ
  Meta : ℚ
  Estado : String
deriving DecidableEq

/-- Row-wise indicator computation of `procesar`: the compound OPAS/IDPS
columns of `_calcular_columnas_compuestas` followed by `_calcular_indicador`
per family (`row.get` always finds the column here), `_calcular_ig_total`,
the `Meta` column and the `Estado` column. -/
def calcular_fila (meta : ℚ) (r : Entrada) : Resultado :=
  let opas_efectivo := r.opas_real * r.opas_personas_conf
  let opas_programado := r.opas_prog * r.opas_personas_prev
  let dps_efectivo := r.dps_real * r.dps_asistentes
  let dps_programado := r.dps_plan * r.dps_previstos
  let iart := calcular_indicador r.nart_ejec r.nart_prog
  let opas := calcular_indicador opas_efectivo opas_programado
  let idps := calcular_indicador dps_efectivo dps_programado
  let ids := calcular_indicador r.ds_eliminadas r.ds_detectadas
  let ients := calcular_indicador r.ent_entrenados r.ent_programados
  let iosea := calcular_indicador r.osea_cumplidos r.osea_aplicables
  let icai := calcular_indicador r.cai_implement r.cai_propuestas
  let ief := calcular_indicador r.ef_auditados r.ef_totales
  let codigos : List (String × ℚ) :=
    [("IART", iart), ("OPAS", opas), ("IDPS", idps), ("IDS", ids),
     ("IENTS", ients), ("IOSEA", iosea), ("ICAI", icai), ("IEF", ief)]
  let ig_total := calcular_ig_total (fun c => List.lookup c codigos)
  { entrada := r
    mes_orden := ReactiveAnalyzer.mes_orden_de (normalizar_mes r.mes)
    IART := iart
    OPAS := opas
    IDPS := idps
    IDS := ids
    IENTS := ients
    IOSEA := iosea
    ICAI := icai
    IEF := ief
    IG_TOTAL := ig_total
    Meta := meta
    Estado := if ig_total ≥ meta then "CUMPLE" else "NO CUMPLE" }

/-- The calculator's mutable attributes: `self.meta` (set at construction,
never changed by `procesar`) and the `self.df_resultado` cache. -/
structure State where
  meta : ℚ := META_DEFAULT
  df_resultado : Option (List Resultado) := none

/-- `_preparar_datos` (ordering part): normalise the month name, rank it,
and `sort_values('mes_orden')` (stable sort). -/
def preparar_datos (rows : List Entrada) : List Entrada :=
  (rows.map (fun r => { r with mes := normalizar_mes r.mes })).mergeSort
    (fun a b =>
      ReactiveAnalyzer.mes_orden_de a.mes ≤ ReactiveAnalyzer.mes_orden_de b.mes)

/-- `ProactiveCalculator.procesar`: normalise column names, validate the
schema (raising the complete missing-column list), prepare and order the
rows, compute every indicator row, cache and return the table. -/
def procesar (st : State) (cols : List String) (rows : List Entrada) :
    State × Except (List String) (List Resultado) :=
  let colsN := cols.map normalizar_col
  let faltantes := COLUMNAS_REQUERIDAS.filter (fun c => c ∉ colsN)
  if 0 < faltantes.length then (st, .error faltantes)
  else
    let df := preparar_datos rows
    let resultado := df.map (calcular_fila st.meta)
    ({ st with df_resultado := some resultado }, .ok resultado)

end ProactiveCalculator

namespace DataValidator

/-- `TipoAnalisis`. -/
inductive TipoAnalisis
  | reactivo
  | proactivo
  | ambos
deriving DecidableEq

/-- `TipoAnalisis.value`, the enum's string payload. -/
def TipoAnalisis.value : TipoAnalisis → String
  | .reactivo => "reactivo"
  | .proactivo => "proactivo"
  | .ambos => "ambos"

/-- `ValidationError` (also used for warnings, as in the source). -/
structure VError where
  columna : String
  mensaje : String
  tipo : String
  fila : Option ℕ := none
deriving DecidableEq

/-- An input DataFrame for the validator, column-oriented: each column is a
name paired with its cells.  A cell is `Option ℚ`: `none` models a value
that `pd.to_numeric(..., errors='coerce')` would turn into NaN (the
validator never reads the text of the `mes` column, so string cells need no
separate representation). -/
structure Tabla where
  columnas : List (String × List (Option ℚ))
deriving DecidableEq

/-- `df.columns`. -/
def Tabla.cols (t : Tabla) : List String := t.columnas.map Prod.fst

/-- `df[c]` for a column known to exist (empty list otherwise). -/
def Tabla.col (t : Tabla) (c : String) : List (Option ℚ) :=
  ((t.columnas.find? (fun p => p.1 = c)).map Prod.snd).getD []

/-- `df.empty`: one of the axes has length 0 (the model assumes a
rectangular table, so zero rows means every column list is empty). -/
def Tabla.vacia (t : Tabla) : Bool :=
  t.columnas.isEmpty || t.columnas.all (fun p => p.2.isEmpty)

/-- A summary value: row counts and column sums are numeric, the analysis
kind is a string. -/
inductive Valor
  | num (q : ℚ)
  | texto (s : String)
deriving DecidableEq

/-- `ValidationResult`. -/
structure ValidationResult where
  es_valido : Bool
  errores : List VError := []
  warnings : List VError := []
  df_limpio : Option Tabla := none
  resumen : List (String × Valor) := []
deriving DecidableEq

/-- `ValidationResult.agregar_error`. -/
def agregar_error (r : ValidationResult) (columna mensaje : String) :
    ValidationResult :=
  { r with
    errores := r.errores ++ [⟨columna, mensaje, "error", none⟩]
    es_valido := false }

/-- `ValidationResult.agregar_warning`. -/
def agregar_warning (r : ValidationResult) (columna mensaje : String) :
    ValidationResult :=
  { r with warnings := r.warnings ++ [⟨columna, mensaje, "warning", none⟩] }

/-- `COLUMNAS_REACTIVO`: required reactive column with its description. -/
def COLUMNAS_REACTIVO : List (String × String) :=
  [("mes", "Mes (texto o número)"),
   ("horas_trabajadas", "Horas Hombre Trabajadas"),
   ("num_lesiones", "Número de Lesiones/Accidentes"),
   ("dias_perdidos", "Días Perdidos por Incapacidad")]

/-- `ALIAS_REACTIVO`. -/
def ALIAS_REACTIVO : List (String × List String) :=
  [("mes", ["mes", "month", "periodo", "fecha", "meses"]),
   ("horas_trabajadas",
    ["horas_trabajadas", "horas", "horas_hombre", "hh",
     "horas trabajadas", "total_horas", "h/h"]),
   ("num_lesiones",
    ["num_lesiones", "lesiones", "accidentes", "num_accidentes",
     "numero_lesiones", "número de lesiones", "n_lesiones"]),
   ("dias_perdidos",
    ["dias_perdidos", "dias", "días perdidos", "días_perdidos",
     "dias_incapacidad", "jornadas_perdidas", "d_perdidos"])]

/-- `ALIAS_PROACTIVO`. -/
def ALIAS_PROACTIVO : List (String × List String) :=
  [("mes", ["mes", "month", "periodo", "fecha", "meses"]),
   ("iart_real", ["iart_real", "iart real", "art_real", "iart_r"]),
   ("iart_programado",
    ["iart_programado", "iart programado", "art_prog", "iart_p"]),
   ("opas_real", ["opas_real", "opas real", "opas_r"]),
   ("opas_programado", ["opas_programado", "opas programado", "opas_p"]),
   ("idps_real", ["idps_real", "idps real", "dps_real", "idps_r"]),
   ("idps_programado",
    ["idps_programado", "idps programado", "dps_prog", "idps_p"]),
   ("ids_real", ["ids_real", "ids real", "ds_real", "ids_r"]),
   ("ids_programado", ["ids_programado", "ids programado", "ds_prog", "ids_p"]),
   ("ients_real", ["ients_real", "ients real", "ents_real", "ients_r"]),
   ("ients_programado",
    ["ients_programado", "ients programado", "ents_prog", "ients_p"]),
   ("iosea_real", ["iosea_real", "iosea real", "osea_real", "iosea_r"]),
   ("iosea_programado",
    ["iosea_programado", "iosea programado", "osea_prog", "iosea_p"]),
   ("icai_real", ["icai_real", "icai real", "cai_real", "icai_r"]),
   ("icai_programado",
    ["icai_programado", "icai programado", "cai_prog", "icai_p"])]

/-- The alias dictionary assembled by `_normalizar_columnas` for each
analysis kind.  For `ambos`, `dict.update` keeps the `mes` entry of
`ALIAS_REACTIVO` in place and overwrites it with `ALIAS_PROACTIVO`'s
identical list, so dropping the duplicate key is equivalent. -/
def alias_para : TipoAnalisis → List (String × List String)
  | .reactivo => ALIAS_REACTIVO
  | .proactivo => ALIAS_PROACTIVO
  | .ambos => ALIAS_REACTIVO ++ ALIAS_PROACTIVO.filter (fun p => p.1 ≠ "mes")

/-- The `rename_map` loop of `_normalizar_columnas`: for each canonical
column not already present, the first alias (normalised) found among the
columns is renamed to it.  Distinct canonical names have disjoint alias
lists here, so appending pairs matches the Python dict. -/
def construir_rename (cols : List String) (alias_map : List (String × List String)) :
    List (String × String) :=
  alias_map.foldl
    (fun rm p =>
      if p.1 ∈ cols then rm
      else
        match p.2.find? (fun al => normalizar_col al ∈ cols) with
        | some al => rm ++ [(normalizar_col al, p.1)]
        | none => rm)
    []

/-- `_normalizar_columnas`: lowercase/trim/underscore every column name,
then apply the alias renames. -/
def normalizar_columnas (tipo : TipoAnalisis) (t : Tabla) : Tabla :=
  let t1 : Tabla := ⟨t.columnas.map (fun p => (normalizar_col p.1, p.2))⟩
  let rm := construir_rename t1.cols (alias_para tipo)
  ⟨t1.columnas.map (fun p => ((List.lookup p.1 rm).getD p.1, p.2))⟩

/-- The numeric columns checked by `_validar_reactivo`. -/
def COLS_NUMERICAS_REACTIVO : List String :=
  ["horas_trabajadas", "num_lesiones", "dias_perdidos"]

/-- One step of `_validar_reactivo`'s first loop: warn about the non-numeric
cells of one column (a cell is `none` exactly when
`pd.to_numeric(..., errors='coerce')` would make it NaN, so the in-place
coercion itself is the identity on this cell model). -/
def paso_nulos (t : Tabla) (res : ValidationResult) (c : String) :
    ValidationResult :=
  let nulos := (t.col c).countP (fun x => x.isNone)
  if 0 < nulos then
    agregar_warning res c
      (toString nulos ++ " valores no numéricos convertidos a NaN")
  else res

/-- One step of `_validar_reactivo`'s second loop: error on the negative
cells of one column (a NaN cell is not `< 0` in pandas, matching the `none`
case here). -/
def paso_negativos (t : Tabla) (res : ValidationResult) (c : String) :
    ValidationResult :=
  let negativos :=
    (t.col c).countP (fun x =>
      match x with
      | some v => decide (v < 0)
      | none => false)
  if 0 < negativos then
    agregar_error res c (toString negativos ++ " valores negativos encontrados")
  else res

/-- `_validar_reactivo`. -/
def validar_reactivo (t : Tabla) (resultado : ValidationResult) :
    ValidationResult × Tabla :=
  let faltantes :=
    (COLUMNAS_REACTIVO.filter (fun p => p.1 ∉ t.cols)).map
      (fun p => p.1 ++ " (" ++ p.2 ++ ")")
  if 0 < faltantes.length then
    (agregar_error resultado "columnas"
      ("Columnas faltantes para análisis REACTIVO: " ++
        String.intercalate ", " faltantes), t)
  else
    let resultado := COLS_NUMERICAS_REACTIVO.foldl (paso_nulos t) resultado
    let resultado := COLS_NUMERICAS_REACTIVO.foldl (paso_negativos t) resultado
    let ceros_horas := (t.col "horas_trabajadas").countP (fun x => x = some 0)
    let resultado :=
      if 0 < ceros_horas then
        agregar_warning resultado "horas_trabajadas"
          (toString ceros_horas ++ " meses con 0 horas trabajadas")
      else resultado
    (resultado, t)

/-- The seven proactive family prefixes checked by `_validar_proactivo`. -/
def INDICADORES_PROACTIVO : List String :=
  ["iart", "opas", "idps", "ids", "ients", "iosea", "icai"]

/-- The `fillna(0)` coercion `_validar_proactivo` applies to a family column
when it exists. -/
def coerce_col (t : Tabla) (c : String) : Tabla :=
  ⟨t.columnas.map (fun p =>
    if p.1 = c then (p.1, p.2.map (fun x => some (x.getD 0))) else p)⟩

/-- `_validar_proactivo`: minimal-column check, one warning per incomplete
real/programado pair, and `pd.to_numeric(...).fillna(0)` on each present
family column. -/
def validar_proactivo (t : Tabla) (resultado : ValidationResult) :
    ValidationResult × Tabla :=
  let minimas := ["mes", "iart_real", "iart_programado"]
  let faltantes := minimas.filter (fun c => c ∉ t.cols)
  if 0 < faltantes.length then
    (agregar_error resultado "columnas"
      ("Columnas mínimas faltantes para análisis PROACTIVO: " ++
        String.intercalate ", " faltantes), t)
  else
    INDICADORES_PROACTIVO.foldl
      (fun acc ind =>
        let (res, tb) := acc
        let col_real := ind ++ "_real"
        let col_prog := ind ++ "_programado"
        let res :=
          if col_real ∈ tb.cols ∧ col_prog ∉ tb.cols then
            agregar_warning res col_prog
              ("Falta columna programada para " ++ ind.toUpper)
          else if col_prog ∈ tb.cols ∧ col_real ∉ tb.cols then
            agregar_warning res col_real ("Falta columna real para " ++ ind.toUpper)
          else res
        let tb := if col_real ∈ tb.cols then coerce_col tb col_real else tb
        let tb := if col_prog ∈ tb.cols then coerce_col tb col_prog else tb
        (res, tb))
      (resultado, t)

/-- `len(df)`: the number of rows (length of the first column under the
rectangularity assumption). -/
def Tabla.nfilas (t : Tabla) : ℕ :=
  ((t.columnas.head?.map (fun p => p.2.length)).getD 0)

/-- `_generar_resumen`. -/
def generar_resumen (tipo : TipoAnalisis) (df : Tabla) : List (String × Valor) :=
  let base : List (String × Valor) :=
    [("total_registros", .num (df.nfilas : ℚ)), ("tipo_analisis", .texto tipo.value)]
  if tipo = .reactivo ∨ tipo = .ambos then
    base ++
      (if "horas_trabajadas" ∈ df.cols then
        [("total_horas", .num (suma_columna (df.col "horas_trabajadas")))]
      else []) ++
      (if "num_lesiones" ∈ df.cols then
        [("total_lesiones", .num (suma_columna (df.col "num_lesiones")))]
      else []) ++
      (if "dias_perdidos" ∈ df.cols then
        [("total_dias_perdidos", .num (suma_columna (df.col "dias_perdidos")))]
      else [])
  else base

/-- The kind dispatch inside `validar`: reactive check, proactive check, or
(for `ambos`) the reactive check followed — only when it passed — by the
proactive check on the same (possibly coerced) table. -/
def validar_por_tipo (tipo : TipoAnalisis) (dfn : Tabla)
    (resultado : ValidationResult) : ValidationResult × Tabla :=
  match tipo with
  | .reactivo => validar_reactivo dfn resultado
  | .proactivo => validar_proactivo dfn resultado
  | .ambos =>
    let p1 := validar_reactivo dfn resultado
    if p1.1.es_valido then validar_proactivo p1.2 p1.1 else p1

/-- `DataValidator.validar`: empty-table check, column normalisation,
kind-specific validation, and attachment of the cleaned table and summary
only when no error was recorded.  `none` models a `None` DataFrame
argument. -/
def validar (tipo : TipoAnalisis) (t? : Option Tabla) : ValidationResult :=
  let resultado : ValidationResult := { es_valido := true }
  match t? with
  | none => agregar_error resultado "general" "El DataFrame está vacío o es nulo"
  | some df =>
    if df.vacia then
      agregar_error resultado "general" "El DataFrame está vacío o es nulo"
    else
      let par := validar_por_tipo tipo (normalizar_columnas tipo df) resultado
      if par.1.es_valido then
        { par.1 with
          df_limpio := some par.2
          resumen := generar_resumen tipo par.2 }
      else par.1

end DataValidator

/-! ## Concrete scenario inputs used by the witnesses -/

/-- Non-negative numeric fields of a proactive input record. -/
def ProactiveCalculator.Entrada.NoNeg (r : ProactiveCalculator.Entrada) : Prop :=
  0 ≤ r.nart_prog ∧ 0 ≤ r.nart_ejec ∧ 0 ≤ r.opas_prog ∧ 0 ≤ r.opas_real ∧
  0 ≤ r.opas_personas_prev ∧ 0 ≤ r.opas_personas_conf ∧ 0 ≤ r.dps_plan ∧
  0 ≤ r.dps_real ∧ 0 ≤ r.dps_previstos ∧ 0 ≤ r.dps_asistentes ∧
  0 ≤ r.ds_detectadas ∧ 0 ≤ r.ds_eliminadas ∧ 0 ≤ r.ent_programados ∧
  0 ≤ r.ent_entrenados ∧ 0 ≤ r.osea_aplicables ∧ 0 ≤ r.osea_cumplidos ∧
  0 ≤ r.cai_propuestas ∧ 0 ≤ r.cai_implement ∧ 0 ≤ r.ef_totales ∧
  0 ≤ r.ef_auditados

instance (r : ProactiveCalculator.Entrada) : Decidable r.NoNeg := by
  unfold ProactiveCalculator.Entrada.NoNeg
  infer_instance

/-- Scenario input for the C2 witness: IART executed 12 of 10 planned
(ratio 120%, capped at 100), OPAS realized 8, compliant 30, programmed 10,
expected 40 (240/400 = 60%); the remaining families at 0/0. -/
def entradaEscenarioBC : ProactiveCalculator.Entrada :=
  { mes := "enero", nart_prog := 10, nart_ejec := 12,
    opas_prog := 10, opas_real := 8, opas_personas_prev := 40,
    opas_personas_conf := 30,
    dps_plan := 0, dps_real := 0, dps_previstos := 0, dps_asistentes := 0,
    ds_detectadas := 0, ds_eliminadas := 0,
    ent_programados := 0, ent_entrenados := 0,
    osea_aplicables := 0, osea_cumplidos := 0,
    cai_propuestas := 0, cai_implement := 0,
    ef_totales := 0, ef_auditados := 0 }

/-- Scenario A input: 2 injuries (as accidents with leave), 10 lost days,
16000 hours worked. -/
def entradaEscenarioA : ReactiveAnalyzer.EntradaReactiva :=
  { mes := "Enero", num_trabajadores := 100, horas_hombre_mes := 16000,
    acc_baja := 2, acc_sin_baja := 0, enf_ocupacionales := 0,
    dias_perdidos := 10, horas_extras := 0 }

/-- The month row computed from scenario A. -/
def filaEscenarioA : ReactiveAnalyzer.Fila :=
  ReactiveAnalyzer.calcular_indices_fila
    (ReactiveAnalyzer.preparar_fila entradaEscenarioA)

/-- A single January month row used by the C1 witness. -/
def mesEneroDemo : ReactiveAnalyzer.Fila :=
  ReactiveAnalyzer.calcular_indices_fila (ReactiveAnalyzer.preparar_fila
    { mes := "enero", num_trabajadores := 100, horas_hombre_mes := 16000,
      acc_baja := 1, acc_sin_baja := 0, enf_ocupacionales := 0,
      dias_perdidos := 5 })

/-- The first-quarter summary row over `[mesEneroDemo]`. -/
def trimUnoDemo : ReactiveAnalyzer.Fila :=
  ReactiveAnalyzer.crear_fila_resumen [mesEneroDemo] "PRIMER TRIMESTRE"
    "trimestre" ReactiveAnalyzer.K_TRIMESTRAL 3

/-- The C9 witness table: `Mes`, `Horas Trabajadas` and `Num_Lesiones`
columns only, one data row. -/
def tablaSinDias : DataValidator.Tabla :=
  ⟨[("Mes", [none]), ("Horas Trabajadas", [some 160]),
    ("Num_Lesiones", [some 1])]⟩

/-- Column list of the C6 witness (raw spreadsheet-style names). -/
def colsDemo : List String :=
  ["Mes", "Num_Trabajadores", "Horas_Hombre_Mes", "Acc_Baja", "Acc_Sin_Baja",
   "Enf_Ocupacionales", "Dias_Perdidos"]

/-- Twelve month records, deliberately out of calendar order, for the C6
witness. -/
def filasDemo : List ReactiveAnalyzer.EntradaReactiva :=
  [⟨"Diciembre", 100, 16000, 1, 0, 0, 2, 0⟩,
   ⟨"Enero", 100, 16000, 0, 1, 0, 0, 0⟩,
   ⟨"Marzo", 100, 16000, 0, 0, 1, 3, 0⟩,
   ⟨"Febrero", 100, 16000, 1, 1, 0, 4, 0⟩,
   ⟨"Mayo", 100, 16000, 0, 0, 0, 0, 0⟩,
   ⟨"Abril", 100, 16000, 2, 0, 0, 5, 0⟩,
   ⟨"Julio", 100, 16000, 0, 0, 0, 0, 0⟩,
   ⟨"Junio", 100, 16000, 1, 0, 0, 1, 0⟩,
   ⟨"Septiembre", 100, 16000, 0, 1, 0, 2, 0⟩,
   ⟨"Agosto", 100, 16000, 0, 0, 0, 0, 0⟩,
   ⟨"Noviembre", 100, 16000, 1, 0, 1, 6, 0⟩,
   ⟨"Octubre", 100, 16000, 0, 0, 0, 0, 0⟩]

/-! ## Claim theorems -/

/-- **C4.** `safe_divide` returns 0 when the denominator is zero or
missing/NaN or when the numerator is missing/NaN (the only way the exact
result can be non-finite), otherwise the quotient; being a total function it
never throws.  In particular `safe_divide x 0 = 0` for every `x`. -/
theorem C4_safe_divide_policy :
    (∀ x : Option ℚ, safe_divide x none = 0) ∧
    (∀ x : Option ℚ, safe_divide x (some 0) = 0) ∧
    (∀ d : Option ℚ, safe_divide none d = 0) ∧
    (∀ n d : ℚ, d ≠ 0 → safe_divide (some n) (some d) = n / d) := by
  refine ⟨fun x => rfl, fun x => by simp [safe_divide], fun d => ?_,
    fun n d hd => by simp [safe_divide, hd]⟩
  cases d with
  | none => rfl
  | some q =>
    by_cases h : q = 0 <;> simp [safe_divide, h]

/-- Witness for C4 at concrete inputs: `safeDivide(10, 0) = 0`,
`safeDivide(0, 0) = 0`, missing denominator gives 0, and a regular division
`7 / 2` goes through. -/
theorem C4_safe_divide_policy_witness :
    safe_divide (some 10) (some 0) = 0 ∧
    safe_divide (some 0) (some 0) = 0 ∧
    safe_divide (some 10) none = 0 ∧
    ((2 : ℚ) ≠ 0 ∧ safe_divide (some 7) (some 2) = 7 / 2) :=
  ⟨C4_safe_divide_policy.2.1 (some 10), C4_safe_divide_policy.2.1 (some 0),
   C4_safe_divide_policy.1 (some 10),
   by norm_num, C4_safe_divide_policy.2.2.2 7 2 (by norm_num)⟩

/-- `_calcular_indicador` is the safe-divide ratio times 100, capped at
100. -/
theorem calcular_indicador_eq_safe_divide (n d : ℚ) :
    ProactiveCalculator.calcular_indicador n d =
      min (safe_divide (some n) (some d) * 100) 100 := by
  unfold ProactiveCalculator.calcular_indicador safe_divide
  by_cases h : d = 0 <;> simp [h]

/-- `_calcular_indicador` stays within `[0, 100]` on non-negative inputs. -/
theorem calcular_indicador_bounds (n d : ℚ) (hn : 0 ≤ n) (hd : 0 ≤ d) :
    0 ≤ ProactiveCalculator.calcular_indicador n d ∧
      ProactiveCalculator.calcular_indicador n d ≤ 100 := by
  unfold ProactiveCalculator.calcular_indicador
  by_cases h : d = 0
  · simp [h]
  · have hdpos : 0 < d := lt_of_le_of_ne hd (Ne.symm h)
    rw [if_neg h]
    refine ⟨le_min (by positivity) (by norm_num), min_le_right _ _⟩

/-- **C2.** For a proactive row with non-negative fields, every simple
family indicator equals `safeDivide(executed, planned) * 100` capped at 100,
every compound family indicator (OPAS, IDPS) applies the same formula to the
products "realized × compliant" over "programmed × expected", and every
indicator lies in `[0, 100]`. -/
theorem C2_indicadores_ratio_cap (meta : ℚ) (r : ProactiveCalculator.Entrada)
    (h : r.NoNeg) :
    ((ProactiveCalculator.calcular_fila meta r).IART =
        min (safe_divide (some r.nart_ejec) (some r.nart_prog) * 100) 100 ∧
      (ProactiveCalculator.calcular_fila meta r).IDS =
        min (safe_divide (some r.ds_eliminadas) (some r.ds_detectadas) * 100) 100 ∧
      (ProactiveCalculator.calcular_fila meta r).IENTS =
        min (safe_divide (some r.ent_entrenados) (some r.ent_programados) * 100) 100 ∧
      (ProactiveCalculator.calcular_fila meta r).IOSEA =
        min (safe_divide (some r.osea_cumplidos) (some r.osea_aplicables) * 100) 100 ∧
      (ProactiveCalculator.calcular_fila meta r).ICAI =
        min (safe_divide (some r.cai_implement) (some r.cai_propuestas) * 100) 100 ∧
      (ProactiveCalculator.calcular_fila meta r).IEF =
        min (safe_divide (some r.ef_auditados) (some r.ef_totales) * 100) 100 ∧
      (ProactiveCalculator.calcular_fila meta r).OPAS =
        min (safe_divide (some (r.opas_real * r.opas_personas_conf))
          (some (r.opas_prog * r.opas_personas_prev)) * 100) 100 ∧
      (ProactiveCalculator.calcular_fila meta r).IDPS =
        min (safe_divide (some (r.dps_real * r.dps_asistentes))
          (some (r.dps_plan * r.dps_previstos)) * 100) 100) ∧
    (0 ≤ (ProactiveCalculator.calcular_fila meta r).IART ∧
      (ProactiveCalculator.calcular_fila meta r).IART ≤ 100 ∧
      0 ≤ (ProactiveCalculator.calcular_fila meta r).OPAS ∧
      (ProactiveCalculator.calcular_fila meta r).OPAS ≤ 100 ∧
      0 ≤ (ProactiveCalculator.calcular_fila meta r).IDPS ∧
      (ProactiveCalculator.calcular_fila meta r).IDPS ≤ 100 ∧
      0 ≤ (ProactiveCalculator.calcular_fila meta r).IDS ∧
      (ProactiveCalculator.calcular_fila meta r).IDS ≤ 100 ∧
      0 ≤ (ProactiveCalculator.calcular_fila meta r).IENTS ∧
      (ProactiveCalculator.calcular_fila meta r).IENTS ≤ 100 ∧
      0 ≤ (ProactiveCalculator.calcular_fila meta r).IOSEA ∧
      (ProactiveCalculator.calcular_fila meta r).IOSEA ≤ 100 ∧
      0 ≤ (ProactiveCalculator.calcular_fila meta r).ICAI ∧
      (ProactiveCalculator.calcular_fila meta r).ICAI ≤ 100 ∧
      0 ≤ (ProactiveCalculator.calcular_fila meta r).IEF ∧
      (ProactiveCalculator.calcular_fila meta r).IEF ≤ 100) := by
  obtain ⟨h1, h2, h3, h4, h5, h6, h7, h8, h9, h10, h11, h12, h13, h14, h15,
    h16, h17, h18, h19, h20⟩ := h
  have eIART : (ProactiveCalculator.calcular_fila meta r).IART =
      ProactiveCalculator.calcular_indicador r.nart_ejec r.nart_prog := rfl
  have eOPAS : (ProactiveCalculator.calcular_fila meta r).OPAS =
      ProactiveCalculator.calcular_indicador (r.opas_real * r.opas_personas_conf)
        (r.opas_prog * r.opas_personas_prev) := rfl
  have eIDPS : (ProactiveCalculator.calcular_fila meta r).IDPS =
      ProactiveCalculator.calcular_indicador (r.dps_real * r.dps_asistentes)
        (r.dps_plan * r.dps_previstos) := rfl
  have eIDS : (ProactiveCalculator.calcular_fila meta r).IDS =
      ProactiveCalculator.calcular_indicador r.ds_eliminadas r.ds_detectadas := rfl
  have eIENTS : (ProactiveCalculator.calcular_fila meta r).IENTS =
      ProactiveCalculator.calcular_indicador r.ent_entrenados r.ent_programados := rfl
  have eIOSEA : (ProactiveCalculator.calcular_fila meta r).IOSEA =
      ProactiveCalculator.calcular_indicador r.osea_cumplidos r.osea_aplicables := rfl
  have eICAI : (ProactiveCalculator.calcular_fila meta r).ICAI =
      ProactiveCalculator.calcular_indicador r.cai_implement r.cai_propuestas := rfl
  have eIEF : (ProactiveCalculator.calcular_fila meta r).IEF =
      ProactiveCalculator.calcular_indicador r.ef_auditados r.ef_totales := rfl
  refine ⟨⟨?_, ?_, ?_, ?_, ?_, ?_, ?_, ?_⟩, ?_⟩
  · rw [eIART, calcular_indicador_eq_safe_divide]
  · rw [eIDS, calcular_indicador_eq_safe_divide]
  · rw [eIENTS, calcular_indicador_eq_safe_divide]
  · rw [eIOSEA, calcular_indicador_eq_safe_divide]
  · rw [eICAI, calcular_indicador_eq_safe_divide]
  · rw [eIEF, calcular_indicador_eq_safe_divide]
  · rw [eOPAS, calcular_indicador_eq_safe_divide]
  · rw [eIDPS, calcular_indicador_eq_safe_divide]
  · rw [eIART, eOPAS, eIDPS, eIDS, eIENTS, eIOSEA, eICAI, eIEF]
    obtain ⟨a1, a2⟩ := calcular_indicador_bounds _ _ h2 h1
    obtain ⟨b1, b2⟩ := calcular_indicador_bounds _ _ (mul_nonneg h4 h6) (mul_nonneg h3 h5)
    obtain ⟨c1, c2⟩ := calcular_indicador_bounds _ _ (mul_nonneg h8 h10) (mul_nonneg h7 h9)
    obtain ⟨d1, d2⟩ := calcular_indicador_bounds _ _ h12 h11
    obtain ⟨e1, e2⟩ := calcular_indicador_bounds _ _ h14 h13
    obtain ⟨f1, f2⟩ := calcular_indicador_bounds _ _ h16 h15
    obtain ⟨g1, g2⟩ := calcular_indicador_bounds _ _ h18 h17
    obtain ⟨i1, i2⟩ := calcular_indicador_bounds _ _ h20 h19
    exact ⟨a1, a2, b1, b2, c1, c2, d1, d2, e1, e2, f1, f2, g1, g2, i1, i2⟩

/-- Witness for C2 at the spec's scenarios B and C: the capped IART is
exactly 100 and OPAS is exactly 60. -/
theorem C2_indicadores_ratio_cap_witness :
    entradaEscenarioBC.NoNeg ∧
    ((ProactiveCalculator.calcular_fila 80 entradaEscenarioBC).IART =
        min (safe_divide (some entradaEscenarioBC.nart_ejec)
          (some entradaEscenarioBC.nart_prog) * 100) 100 ∧
      0 ≤ (ProactiveCalculator.calcular_fila 80 entradaEscenarioBC).IART ∧
      (ProactiveCalculator.calcular_fila 80 entradaEscenarioBC).IART ≤ 100) ∧
    (ProactiveCalculator.calcular_fila 80 entradaEscenarioBC).IART = 100 ∧
    (ProactiveCalculator.calcular_fila 80 entradaEscenarioBC).OPAS = 60 := by
  have h := C2_indicadores_ratio_cap 80 entradaEscenarioBC (by decide)
  refine ⟨by decide, ⟨h.1.1, h.2.1, h.2.2.1⟩, ?_, ?_⟩
  · rw [h.1.1]
    norm_num [entradaEscenarioBC, safe_divide]
  · rw [h.1.2.2.2.2.2.2.1]
    norm_num [entradaEscenarioBC, safe_divide]

/-- **C3.** `_calcular_ig_total` equals the weighted sum of exactly the
seven weighted family indicators (weights IART 5, OPAS 3, IDPS 2, IDS 3,
IENTS 1, IOSEA 4, ICAI 4) divided by the constant 22, for *every* row: an
indicator absent from the row (`none`) contributes 0 to the numerator while
the divisor stays 22, and IEF never contributes.  Consequently the engine's
per-row `IG_TOTAL` is that weighted combination of the row's own
indicators. -/
theorem C3_ig_total_fixed_divisor :
    (∀ row : String → Option ℚ,
      ProactiveCalculator.calcular_ig_total row =
        (5 * ((row "IART").getD 0) + 3 * ((row "OPAS").getD 0) +
          2 * ((row "IDPS").getD 0) + 3 * ((row "IDS").getD 0) +
          ((row "IENTS").getD 0) + 4 * ((row "IOSEA").getD 0) +
          4 * ((row "ICAI").getD 0)) / 22) ∧
    (∀ (meta : ℚ) (r : ProactiveCalculator.Entrada),
      (ProactiveCalculator.calcular_fila meta r).IG_TOTAL =
        (5 * (ProactiveCalculator.calcular_fila meta r).IART +
          3 * (ProactiveCalculator.calcular_fila meta r).OPAS +
          2 * (ProactiveCalculator.calcular_fila meta r).IDPS +
          3 * (ProactiveCalculator.calcular_fila meta r).IDS +
          (ProactiveCalculator.calcular_fila meta r).IENTS +
          4 * (ProactiveCalculator.calcular_fila meta r).IOSEA +
          4 * (ProactiveCalculator.calcular_fila meta r).ICAI) / 22) := by
  have main : ∀ row : String → Option ℚ,
      ProactiveCalculator.calcular_ig_total row =
        (5 * ((row "IART").getD 0) + 3 * ((row "OPAS").getD 0) +
          2 * ((row "IDPS").getD 0) + 3 * ((row "IDS").getD 0) +
          ((row "IENTS").getD 0) + 4 * ((row "IOSEA").getD 0) +
          4 * ((row "ICAI").getD 0)) / 22 := by
    intro row
    simp only [ProactiveCalculator.calcular_ig_total, ProactiveCalculator.PESOS,
      List.foldl_cons, List.foldl_nil]
    norm_num
  refine ⟨main, fun meta r => ?_⟩
  have busca : ∀ a b c d e f g h : ℚ,
      (List.lookup "IART"
          [("IART", a), ("OPAS", b), ("IDPS", c), ("IDS", d),
           ("IENTS", e), ("IOSEA", f), ("ICAI", g), ("IEF", h)] = some a) ∧
      (List.lookup "OPAS"
          [("IART", a), ("OPAS", b), ("IDPS", c), ("IDS", d),
           ("IENTS", e), ("IOSEA", f), ("ICAI", g), ("IEF", h)] = some b) ∧
      (List.lookup "IDPS"
          [("IART", a), ("OPAS", b), ("IDPS", c), ("IDS", d),
           ("IENTS", e), ("IOSEA", f), ("ICAI", g), ("IEF", h)] = some c) ∧
      (List.lookup "IDS"
          [("IART", a), ("OPAS", b), ("IDPS", c), ("IDS", d),
           ("IENTS", e), ("IOSEA", f), ("ICAI", g), ("IEF", h)] = some d) ∧
      (List.lookup "IENTS"
          [("IART", a), ("OPAS", b), ("IDPS", c), ("IDS", d),
           ("IENTS", e), ("IOSEA", f), ("ICAI", g), ("IEF", h)] = some e) ∧
      (List.lookup "IOSEA"
          [("IART", a), ("OPAS", b), ("IDPS", c), ("IDS", d),
           ("IENTS", e), ("IOSEA", f), ("ICAI", g), ("IEF", h)] = some f) ∧
      (List.lookup "ICAI"
          [("IART", a), ("OPAS", b), ("IDPS", c), ("IDS", d),
           ("IENTS", e), ("IOSEA", f), ("ICAI", g), ("IEF", h)] = some g) :=
    fun a b c d e f g h => ⟨rfl, rfl, rfl, rfl, rfl, rfl, rfl⟩
  have this1 : (ProactiveCalculator.calcular_fila meta r).IG_TOTAL =
      ProactiveCalculator.calcular_ig_total
        (fun c => List.lookup c
          [("IART", (ProactiveCalculator.calcular_fila meta r).IART),
           ("OPAS", (ProactiveCalculator.calcular_fila meta r).OPAS),
           ("IDPS", (ProactiveCalculator.calcular_fila meta r).IDPS),
           ("IDS", (ProactiveCalculator.calcular_fila meta r).IDS),
           ("IENTS", (ProactiveCalculator.calcular_fila meta r).IENTS),
           ("IOSEA", (ProactiveCalculator.calcular_fila meta r).IOSEA),
           ("ICAI", (ProactiveCalculator.calcular_fila meta r).ICAI),
           ("IEF", (ProactiveCalculator.calcular_fila meta r).IEF)]) := rfl
  obtain ⟨b1, b2, b3, b4, b5, b6, b7⟩ :=
    busca (ProactiveCalculator.calcular_fila meta r).IART
      (ProactiveCalculator.calcular_fila meta r).OPAS
      (ProactiveCalculator.calcular_fila meta r).IDPS
      (ProactiveCalculator.calcular_fila meta r).IDS
      (ProactiveCalculator.calcular_fila meta r).IENTS
      (ProactiveCalculator.calcular_fila meta r).IOSEA
      (ProactiveCalculator.calcular_fila meta r).ICAI
      (ProactiveCalculator.calcular_fila meta r).IEF
  rw [this1, main]
  simp only [b1, b2, b3, b4, b5, b6, b7, Option.getD_some]

/-- The reactive engine's output does not depend on its cached state. -/
theorem reactive_procesar_state_irrelevant (st st' : ReactiveAnalyzer.State)
    (cols : List String) (rows : List ReactiveAnalyzer.EntradaReactiva) :
    (ReactiveAnalyzer.procesar st cols rows).2 =
      (ReactiveAnalyzer.procesar st' cols rows).2 := by
  simp only [ReactiveAnalyzer.procesar]
  split <;> rfl

/-- The proactive engine's output depends on its state only through the
configured target `meta`, which `procesar` never changes. -/
theorem proactive_procesar_meta_only (st st' : ProactiveCalculator.State)
    (hm : st.meta = st'.meta)
    (cols : List String) (rows : List ProactiveCalculator.Entrada) :
    (ProactiveCalculator.procesar st cols rows).2 =
      (ProactiveCalculator.procesar st' cols rows).2 := by
  simp only [ProactiveCalculator.procesar, hm]
  split <;> rfl

/-- `procesar` preserves the proactive `meta` attribute. -/
theorem proactive_procesar_preserves_meta (st : ProactiveCalculator.State)
    (cols : List String) (rows : List ProactiveCalculator.Entrada) :
    (ProactiveCalculator.procesar st cols rows).1.meta = st.meta := by
  simp only [ProactiveCalculator.procesar]
  split <;> rfl

/-- **C8.** Calling `procesar` twice on the same unmodified input yields
identical outputs for both engines: the second call, run from whatever
state the first call left behind, returns exactly the first call's result
(the computation reads no hidden state, randomness or clock; the reactive
output ignores the cached state entirely, and the proactive output depends
only on the `meta` attribute, which `procesar` preserves). -/
theorem C8_procesar_idempotent (stR : ReactiveAnalyzer.State)
    (colsR : List String) (rowsR : List ReactiveAnalyzer.EntradaReactiva)
    (stP : ProactiveCalculator.State) (colsP : List String)
    (rowsP : List ProactiveCalculator.Entrada) :
    (ReactiveAnalyzer.procesar (ReactiveAnalyzer.procesar stR colsR rowsR).1
        colsR rowsR).2 =
      (ReactiveAnalyzer.procesar stR colsR rowsR).2 ∧
    (ProactiveCalculator.procesar (ProactiveCalculator.procesar stP colsP rowsP).1
        colsP rowsP).2 =
      (ProactiveCalculator.procesar stP colsP rowsP).2 :=
  ⟨reactive_procesar_state_irrelevant _ stR colsR rowsR,
   proactive_procesar_meta_only _ stP
     (proactive_procesar_preserves_meta stP colsP rowsP) colsP rowsP⟩

/-- **C7.** For an input table missing required columns, both engines'
`procesar` fails at once with the schema error carrying the complete list
of missing required fields (every required column absent from the
normalised column list, not just the first), and no processed table is
produced; when no required column is missing, `procesar` always returns a
result — the arithmetic layer is total and can never surface an
exception. -/
theorem C7_schema_error_complete (stR : ReactiveAnalyzer.State)
    (stP : ProactiveCalculator.State) (cols : List String)
    (rowsR : List ReactiveAnalyzer.EntradaReactiva)
    (rowsP : List ProactiveCalculator.Entrada) :
    (ReactiveAnalyzer.validar_columnas (cols.map normalizar_col) ≠ [] →
      (ReactiveAnalyzer.procesar stR cols rowsR).2 =
        .error (ReactiveAnalyzer.COLUMNAS_REQUERIDAS.filter
          (fun c => c ∉ cols.map normalizar_col))) ∧
    (ReactiveAnalyzer.validar_columnas (cols.map normalizar_col) = [] →
      ∃ out, (ReactiveAnalyzer.procesar stR cols rowsR).2 = .ok out) ∧
    (ProactiveCalculator.COLUMNAS_REQUERIDAS.filter
        (fun c => c ∉ cols.map normalizar_col) ≠ [] →
      (ProactiveCalculator.procesar stP cols rowsP).2 =
        .error (ProactiveCalculator.COLUMNAS_REQUERIDAS.filter
          (fun c => c ∉ cols.map normalizar_col))) ∧
    (ProactiveCalculator.COLUMNAS_REQUERIDAS.filter
        (fun c => c ∉ cols.map normalizar_col) = [] →
      ∃ out, (ProactiveCalculator.procesar stP cols rowsP).2 = .ok out) := by
  refine ⟨fun h => ?_, fun h => ?_, fun h => ?_, fun h => ?_⟩
  · have hl : 0 < (ReactiveAnalyzer.validar_columnas
        (cols.map normalizar_col)).length := List.length_pos.mpr h
    simp only [ReactiveAnalyzer.procesar, if_pos hl]
    rfl
  · have hl : ¬ 0 < (ReactiveAnalyzer.validar_columnas
        (cols.map normalizar_col)).length := by rw [h]; simp
    refine ⟨(ReactiveAnalyzer.insertar_resumenes
        (ReactiveAnalyzer.calcular_indices_meses
          (ReactiveAnalyzer.preparar_datos_base rowsR)),
      (ReactiveAnalyzer.insertar_resumenes
          (ReactiveAnalyzer.calcular_indices_meses
            (ReactiveAnalyzer.preparar_datos_base rowsR))).filter
        (fun f => f.tipo_fila = "mes")), ?_⟩
    simp only [ReactiveAnalyzer.procesar, if_neg hl]
  · have hl : 0 < (ProactiveCalculator.COLUMNAS_REQUERIDAS.filter
        (fun c => c ∉ cols.map normalizar_col)).length := List.length_pos.mpr h
    simp only [ProactiveCalculator.procesar, if_pos hl]
  · have hl : ¬ 0 < (ProactiveCalculator.COLUMNAS_REQUERIDAS.filter
        (fun c => c ∉ cols.map normalizar_col)).length := by rw [h]; simp
    refine ⟨(ProactiveCalculator.preparar_datos rowsP).map
      (ProactiveCalculator.calcular_fila stP.meta), ?_⟩
    simp only [ProactiveCalculator.procesar, if_neg hl]

/-- Witness for C7: a table supplying only `Mes` and `Acc_Baja` makes the
reactive engine report all five other required columns at once, and a table
supplying only the 21 proactive columns except `nart_prog` and `ef_totales`
reports exactly those two. -/
theorem C7_schema_error_complete_witness :
    (ReactiveAnalyzer.validar_columnas
        (["Mes", "Acc_Baja"].map normalizar_col) ≠ [] ∧
      (ReactiveAnalyzer.procesar {} ["Mes", "Acc_Baja"] []).2 =
        .error ["num_trabajadores", "horas_hombre_mes", "acc_sin_baja",
          "enf_ocupacionales", "dias_perdidos"]) ∧
    ((ProactiveCalculator.COLUMNAS_REQUERIDAS.filter
        (fun c => c ∉ ["mes", "nart_ejec", "opas_prog", "opas_real",
          "opas_personas_prev", "opas_personas_conf", "dps_plan", "dps_real",
          "dps_previstos", "dps_asistentes", "ds_detectadas", "ds_eliminadas",
          "ent_programados", "ent_entrenados", "osea_aplicables",
          "osea_cumplidos", "cai_propuestas", "cai_implement",
          "ef_auditados"].map normalizar_col)) ≠ [] ∧
      (ProactiveCalculator.procesar {} ["mes", "nart_ejec", "opas_prog",
          "opas_real", "opas_personas_prev", "opas_personas_conf", "dps_plan",
          "dps_real", "dps_previstos", "dps_asistentes", "ds_detectadas",
          "ds_eliminadas", "ent_programados", "ent_entrenados",
          "osea_aplicables", "osea_cumplidos", "cai_propuestas",
          "cai_implement", "ef_auditados"] []).2 =
        .error ["nart_prog", "ef_totales"]) := by
  constructor
  · constructor
    · decide
    · have h := (C7_schema_error_complete {} {} ["Mes", "Acc_Baja"] [] []).1
        (by decide)
      rw [h]
      exact congrArg Except.error (by decide)
  · constructor
    · decide
    · have h := (C7_schema_error_complete {} {} ["mes", "nart_ejec",
          "opas_prog", "opas_real", "opas_personas_prev", "opas_personas_conf",
          "dps_plan", "dps_real", "dps_previstos", "dps_asistentes",
          "ds_detectadas", "ds_eliminadas", "ent_programados", "ent_entrenados",
          "osea_aplicables", "osea_cumplidos", "cai_propuestas",
          "cai_implement", "ef_auditados"] [] []).2.2.1 (by decide)
      rw [h]
      exact congrArg Except.error (by decide)

/-- **C5.** Every row produced by the monthly pipeline carries
`IF = safeDivide(totalInjuries * 16666.67, hoursWorked)`,
`IG = safeDivide(lostDays * 16666.67, hoursWorked)`,
`TR = safeDivide(lostDays, totalInjuries)`, with
`totalInjuries = accidentsWithLeave + accidentsWithoutLeave + illnesses`,
and records the monthly K constant.  (The spec's scenario A figures 2.083
and 10.417 are the 3-decimal displays of the exact values 2.08333375 and
10.41666875, checked by the witness.) -/
theorem C5_indices_mensuales (rows : List ReactiveAnalyzer.EntradaReactiva)
    (f : ReactiveAnalyzer.Fila)
    (hf : f ∈ ReactiveAnalyzer.calcular_indices_meses
      (ReactiveAnalyzer.preparar_datos_base rows)) :
    f.IF = safe_divide (some (f.total_lesiones * 16666.67)) (some f.total_horas) ∧
    f.IG = safe_divide (some (f.dias_perdidos * 16666.67)) (some f.total_horas) ∧
    f.TR = safe_divide (some f.dias_perdidos) (some f.total_lesiones) ∧
    f.total_lesiones = f.acc_baja + f.acc_sin_baja + f.enf_ocupacionales ∧
    f.constante_k = 16666.67 := by
  simp only [ReactiveAnalyzer.calcular_indices_meses, List.mem_map] at hf
  obtain ⟨g, hg, rfl⟩ := hf
  have hg' : g ∈ rows.map ReactiveAnalyzer.preparar_fila := by
    simpa [ReactiveAnalyzer.preparar_datos_base] using hg
  obtain ⟨r, _, rfl⟩ := List.mem_map.mp hg'
  exact ⟨rfl, rfl, rfl, rfl, rfl⟩

/-- Witness for C5 on scenario A: the formulas hold on the computed row and
give exactly `IF = 2.08333375` (displayed 2.083), `IG = 10.41666875`
(displayed 10.417), `TR = 5`. -/
theorem C5_indices_mensuales_witness :
    filaEscenarioA ∈ ReactiveAnalyzer.calcular_indices_meses
      (ReactiveAnalyzer.preparar_datos_base [entradaEscenarioA]) ∧
    (filaEscenarioA.IF =
        safe_divide (some (filaEscenarioA.total_lesiones * 16666.67))
          (some filaEscenarioA.total_horas) ∧
      filaEscenarioA.IG =
        safe_divide (some (filaEscenarioA.dias_perdidos * 16666.67))
          (some filaEscenarioA.total_horas) ∧
      filaEscenarioA.TR =
        safe_divide (some filaEscenarioA.dias_perdidos)
          (some filaEscenarioA.total_lesiones) ∧
      filaEscenarioA.total_lesiones =
        filaEscenarioA.acc_baja + filaEscenarioA.acc_sin_baja +
          filaEscenarioA.enf_ocupacionales ∧
      filaEscenarioA.constante_k = 16666.67) ∧
    filaEscenarioA.IF = 2.08333375 ∧
    (2.083 ≤ filaEscenarioA.IF ∧ filaEscenarioA.IF < 2.0835) ∧
    filaEscenarioA.IG = 10.41666875 ∧
    (10.4165 ≤ filaEscenarioA.IG ∧ filaEscenarioA.IG < 10.4175) ∧
    filaEscenarioA.TR = 5 := by
  have hmem : filaEscenarioA ∈ ReactiveAnalyzer.calcular_indices_meses
      (ReactiveAnalyzer.preparar_datos_base [entradaEscenarioA]) := by
    simp [ReactiveAnalyzer.calcular_indices_meses,
      ReactiveAnalyzer.preparar_datos_base, filaEscenarioA]
  have hIF : filaEscenarioA.IF = 2.08333375 := by
    show safe_divide (some ((2 + 0 + 0) * ReactiveAnalyzer.K_MENSUAL))
      (some (if (16000 : ℚ) > 0 then 16000
        else 100 * ReactiveAnalyzer.HORAS_MENSUALES_STD + 0)) = 2.08333375
    norm_num [safe_divide, ReactiveAnalyzer.K_MENSUAL]
  have hIG : filaEscenarioA.IG = 10.41666875 := by
    show safe_divide (some (10 * ReactiveAnalyzer.K_MENSUAL))
      (some (if (16000 : ℚ) > 0 then 16000
        else 100 * ReactiveAnalyzer.HORAS_MENSUALES_STD + 0)) = 10.41666875
    norm_num [safe_divide, ReactiveAnalyzer.K_MENSUAL]
  have hTR : filaEscenarioA.TR = 5 := by
    show safe_divide (some 10) (some (2 + 0 + 0)) = 5
    norm_num [safe_divide]
  refine ⟨hmem,
    C5_indices_mensuales [entradaEscenarioA] filaEscenarioA hmem,
    hIF, ⟨by rw [hIF]; norm_num, by rw [hIF]; norm_num⟩,
    hIG, ⟨by rw [hIG]; norm_num, by rw [hIG]; norm_num⟩, hTR⟩

/-- Unfolding a left fold that appends per-element blocks. -/
theorem foldl_append_blocks {α β : Type _} (g : α → List β) :
    ∀ (l : List α) (acc : List β),
      l.foldl (fun a t => a ++ g t) acc = acc ++ (l.map g).flatten := by
  intro l
  induction l with
  | nil => intro acc; simp
  | cons t ts ih => intro acc; simp [ih]

/-- Every row taken by `tomar` is a row of the source table (whatever the
index list — no property of the argsort is needed). -/
theorem mem_of_mem_tomar {α : Type _} (df : List α) (idx : List ℕ) (x : α)
    (hx : x ∈ tomar df idx) : x ∈ df := by
  unfold tomar at hx
  obtain ⟨i, _, hi⟩ := List.mem_filterMap.mp hx
  exact List.get?_mem hi

/-- Every row of `_insertar_resúmenes` comes from a quarter block or is the
annual summary row (the final sort only selects assembled rows). -/
theorem mem_insertar_resumenes (df : List ReactiveAnalyzer.Fila)
    (r : ReactiveAnalyzer.Fila)
    (hr : r ∈ ReactiveAnalyzer.insertar_resumenes df) :
    (∃ t ∈ ReactiveAnalyzer.TRIMESTRES,
        r ∈ ReactiveAnalyzer.bloque_trimestre df t) ∨
      r = ReactiveAnalyzer.crear_fila_resumen df "TOTAL AÑO" "anual"
        ReactiveAnalyzer.K_ANUAL 99 := by
  unfold ReactiveAnalyzer.insertar_resumenes at hr
  replace hr := mem_of_mem_tomar _ _ _ hr
  rw [foldl_append_blocks] at hr
  simp only [List.nil_append, List.mem_append, List.mem_flatten, List.mem_map,
    List.mem_singleton] at hr
  rcases hr with ⟨l, ⟨t, ht, rfl⟩, hrl⟩ | h
  · exact Or.inl ⟨t, ht, hrl⟩
  · exact Or.inr h

/-- **C1.** In the reactive report, every quarter summary row is built from
the quarter's constituent month rows by summing the raw counts (injuries,
hours, lost days, accidents with/without leave, illnesses) and recomputing
IF, IG, TR from those sums with K = 50,000, with the worker count the mean
of the quarter's monthly counts; the annual summary row is built the same
way over all month rows with K = 200,000, so its IF equals
`safeDivide(totalYearInjuries * 200000, totalYearHours)`. -/
theorem C1_rollup_recompute (df_meses : List ReactiveAnalyzer.Fila)
    (hmes : ∀ f ∈ df_meses, f.tipo_fila = "mes")
    (r : ReactiveAnalyzer.Fila)
    (hr : r ∈ ReactiveAnalyzer.insertar_resumenes df_meses) :
    (r.tipo_fila = "trimestre" →
      ∃ t ∈ ReactiveAnalyzer.TRIMESTRES,
        0 < (df_meses.filter (fun f => f.mes ∈ t.2.2)).length ∧
        r.total_lesiones = ((df_meses.filter (fun f => f.mes ∈ t.2.2)).map
          ReactiveAnalyzer.Fila.total_lesiones).sum ∧
        r.total_horas = ((df_meses.filter (fun f => f.mes ∈ t.2.2)).map
          ReactiveAnalyzer.Fila.total_horas).sum ∧
        r.dias_perdidos = ((df_meses.filter (fun f => f.mes ∈ t.2.2)).map
          ReactiveAnalyzer.Fila.dias_perdidos).sum ∧
        r.acc_baja = ((df_meses.filter (fun f => f.mes ∈ t.2.2)).map
          ReactiveAnalyzer.Fila.acc_baja).sum ∧
        r.acc_sin_baja = ((df_meses.filter (fun f => f.mes ∈ t.2.2)).map
          ReactiveAnalyzer.Fila.acc_sin_baja).sum ∧
        r.enf_ocupacionales = ((df_meses.filter (fun f => f.mes ∈ t.2.2)).map
          ReactiveAnalyzer.Fila.enf_ocupacionales).sum ∧
        r.num_trabajadores = ((df_meses.filter (fun f => f.mes ∈ t.2.2)).map
            ReactiveAnalyzer.Fila.num_trabajadores).sum /
          ((df_meses.filter (fun f => f.mes ∈ t.2.2)).length : ℚ) ∧
        r.constante_k = 50000 ∧
        r.IF = safe_divide (some (r.total_lesiones * 50000)) (some r.total_horas) ∧
        r.IG = safe_divide (some (r.dias_perdidos * 50000)) (some r.total_horas) ∧
        r.TR = safe_divide (some r.dias_perdidos) (some r.total_lesiones)) ∧
    (r.tipo_fila = "anual" →
      r.total_lesiones = (df_meses.map ReactiveAnalyzer.Fila.total_lesiones).sum ∧
      r.total_horas = (df_meses.map ReactiveAnalyzer.Fila.total_horas).sum ∧
      r.dias_perdidos = (df_meses.map ReactiveAnalyzer.Fila.dias_perdidos).sum ∧
      r.constante_k = 200000 ∧
      r.IF = safe_divide (some ((df_meses.map
          ReactiveAnalyzer.Fila.total_lesiones).sum * 200000))
        (some (df_meses.map ReactiveAnalyzer.Fila.total_horas).sum) ∧
      r.IG = safe_divide (some ((df_meses.map
          ReactiveAnalyzer.Fila.dias_perdidos).sum * 200000))
        (some (df_meses.map ReactiveAnalyzer.Fila.total_horas).sum) ∧
      r.TR = safe_divide (some (df_meses.map
          ReactiveAnalyzer.Fila.dias_perdidos).sum)
        (some (df_meses.map ReactiveAnalyzer.Fila.total_lesiones).sum)) := by
  replace hr := mem_insertar_resumenes df_meses r hr
  rcases hr with ⟨t, ht, hb⟩ | rfl
  · unfold ReactiveAnalyzer.bloque_trimestre at hb
    by_cases hpos : 0 < (df_meses.filter (fun f => f.mes ∈ t.2.2)).length
    · rw [if_pos hpos, List.mem_append] at hb
      rcases hb with hmem | hq
      · have : r.tipo_fila = "mes" := hmes r (List.mem_filter.mp hmem).1
        constructor
        · intro habs
          rw [this] at habs
          exact absurd habs (by decide)
        · intro habs
          rw [this] at habs
          exact absurd habs (by decide)
      · rw [List.mem_singleton] at hq
        subst hq
        constructor
        · intro _
          refine ⟨t, ht, hpos, rfl, rfl, rfl, rfl, rfl, rfl, ?_, rfl, rfl,
            rfl, rfl⟩
          show media ((df_meses.filter (fun f => f.mes ∈ t.2.2)).map
            ReactiveAnalyzer.Fila.num_trabajadores) = _
          simp [media]
        · intro habs
          exact absurd (show ("trimestre" : String) = "anual" from habs)
            (by decide)
    · rw [if_neg hpos] at hb
      have : df_meses.filter (fun f => f.mes ∈ t.2.2) = [] :=
        List.eq_nil_of_length_eq_zero (by omega)
      rw [this] at hb
      exact absurd hb (List.not_mem_nil r)
  · constructor
    · intro habs
      exact absurd (show ("anual" : String) = "trimestre" from habs) (by decide)
    · intro _
      exact ⟨rfl, rfl, rfl, rfl, rfl, rfl, rfl⟩

/-- Witness for C1: on a one-month input the generated first-quarter row
satisfies the rollup-and-recompute characterisation. -/
theorem C1_rollup_recompute_witness :
    mesEneroDemo.tipo_fila = "mes" ∧
    trimUnoDemo ∈ ReactiveAnalyzer.insertar_resumenes [mesEneroDemo] ∧
    ((trimUnoDemo.tipo_fila = "trimestre" →
      ∃ t ∈ ReactiveAnalyzer.TRIMESTRES,
        0 < ([mesEneroDemo].filter (fun f => f.mes ∈ t.2.2)).length ∧
        trimUnoDemo.total_lesiones =
          (([mesEneroDemo].filter (fun f => f.mes ∈ t.2.2)).map
            ReactiveAnalyzer.Fila.total_lesiones).sum ∧
        trimUnoDemo.total_horas =
          (([mesEneroDemo].filter (fun f => f.mes ∈ t.2.2)).map
            ReactiveAnalyzer.Fila.total_horas).sum ∧
        trimUnoDemo.dias_perdidos =
          (([mesEneroDemo].filter (fun f => f.mes ∈ t.2.2)).map
            ReactiveAnalyzer.Fila.dias_perdidos).sum ∧
        trimUnoDemo.acc_baja =
          (([mesEneroDemo].filter (fun f => f.mes ∈ t.2.2)).map
            ReactiveAnalyzer.Fila.acc_baja).sum ∧
        trimUnoDemo.acc_sin_baja =
          (([mesEneroDemo].filter (fun f => f.mes ∈ t.2.2)).map
            ReactiveAnalyzer.Fila.acc_sin_baja).sum ∧
        trimUnoDemo.enf_ocupacionales =
          (([mesEneroDemo].filter (fun f => f.mes ∈ t.2.2)).map
            ReactiveAnalyzer.Fila.enf_ocupacionales).sum ∧
        trimUnoDemo.num_trabajadores =
          (([mesEneroDemo].filter (fun f => f.mes ∈ t.2.2)).map
              ReactiveAnalyzer.Fila.num_trabajadores).sum /
            (([mesEneroDemo].filter (fun f => f.mes ∈ t.2.2)).length : ℚ) ∧
        trimUnoDemo.constante_k = 50000 ∧
        trimUnoDemo.IF = safe_divide (some (trimUnoDemo.total_lesiones * 50000))
          (some trimUnoDemo.total_horas) ∧
        trimUnoDemo.IG = safe_divide (some (trimUnoDemo.dias_perdidos * 50000))
          (some trimUnoDemo.total_horas) ∧
        trimUnoDemo.TR = safe_divide (some trimUnoDemo.dias_perdidos)
          (some trimUnoDemo.total_lesiones)) ∧
    (trimUnoDemo.tipo_fila = "anual" →
      trimUnoDemo.total_lesiones =
        ([mesEneroDemo].map ReactiveAnalyzer.Fila.total_lesiones).sum ∧
      trimUnoDemo.total_horas =
        ([mesEneroDemo].map ReactiveAnalyzer.Fila.total_horas).sum ∧
      trimUnoDemo.dias_perdidos =
        ([mesEneroDemo].map ReactiveAnalyzer.Fila.dias_perdidos).sum ∧
      trimUnoDemo.constante_k = 200000 ∧
      trimUnoDemo.IF = safe_divide (some (([mesEneroDemo].map
          ReactiveAnalyzer.Fila.total_lesiones).sum * 200000))
        (some ([mesEneroDemo].map ReactiveAnalyzer.Fila.total_horas).sum) ∧
      trimUnoDemo.IG = safe_divide (some (([mesEneroDemo].map
          ReactiveAnalyzer.Fila.dias_perdidos).sum * 200000))
        (some ([mesEneroDemo].map ReactiveAnalyzer.Fila.total_horas).sum) ∧
      trimUnoDemo.TR = safe_divide (some ([mesEneroDemo].map
          ReactiveAnalyzer.Fila.dias_perdidos).sum)
        (some ([mesEneroDemo].map ReactiveAnalyzer.Fila.total_lesiones).sum))) := by
  have hmes : ∀ f ∈ [mesEneroDemo], f.tipo_fila = "mes" := by
    intro f hf
    rw [List.mem_singleton] at hf
    subst hf
    rfl
  have hm : mesEneroDemo.mes = "enero" := rfl
  have hfilA : [mesEneroDemo].filter
      (fun f => f.mes ∈ ["enero", "febrero", "marzo"]) = [mesEneroDemo] := by
    simp [List.filter, hm]
  have hfilB : [mesEneroDemo].filter
      (fun f => f.mes ∈ ["abril", "mayo", "junio"]) = [] := by
    simp [List.filter, hm]
  have hfilC : [mesEneroDemo].filter
      (fun f => f.mes ∈ ["julio", "agosto", "septiembre"]) = [] := by
    simp [List.filter, hm]
  have hfilD : [mesEneroDemo].filter
      (fun f => f.mes ∈ ["octubre", "noviembre", "diciembre"]) = [] := by
    simp [List.filter, hm]
  have hcro : ∀ l n t k o,
      (ReactiveAnalyzer.crear_fila_resumen l n t k o).mes_orden = o :=
    fun l n t k o => rfl
  have hins1 : ReactiveAnalyzer.insertar_resumenes [mesEneroDemo] =
      [mesEneroDemo, trimUnoDemo,
       ReactiveAnalyzer.crear_fila_resumen [mesEneroDemo] "TOTAL AÑO" "anual"
         ReactiveAnalyzer.K_ANUAL 99] := by
    unfold ReactiveAnalyzer.insertar_resumenes
    rw [show ReactiveAnalyzer.TRIMESTRES =
      [(1, "PRIMER TRIMESTRE", ["enero", "febrero", "marzo"]),
       (2, "SEGUNDO TRIMESTRE", ["abril", "mayo", "junio"]),
       (3, "TERCER TRIMESTRE", ["julio", "agosto", "septiembre"]),
       (4, "CUARTO TRIMESTRE", ["octubre", "noviembre", "diciembre"])] from rfl]
    simp only [List.foldl_cons, List.foldl_nil]
    unfold ReactiveAnalyzer.bloque_trimestre
    dsimp only
    rw [hfilA, hfilB, hfilC, hfilD]
    simp only [List.length_singleton, List.length_nil, Nat.lt_irrefl,
      Nat.zero_lt_one, if_true, if_false, List.nil_append, List.cons_append,
      List.append_nil, List.map_cons, List.map_nil, hcro]
    rw [show mesEneroDemo.mes_orden = 0 from rfl]
    norm_num
    rw [show np_argsort [0, 3, 99] = [0, 1, 2] from by decide]
    rfl
  have hmem : trimUnoDemo ∈ ReactiveAnalyzer.insertar_resumenes [mesEneroDemo] := by
    rw [hins1]
    exact List.mem_cons_of_mem _ (List.mem_cons_self _ _)
  exact ⟨rfl, hmem, C1_rollup_recompute [mesEneroDemo] hmes trimUnoDemo hmem⟩

namespace DataValidator

/-- `agregar_error` and `agregar_warning` never touch the cleaned table or
the summary. -/
theorem agregar_preserva (r : ValidationResult) (c m : String) :
    ((agregar_error r c m).df_limpio = r.df_limpio ∧
      (agregar_error r c m).resumen = r.resumen) ∧
    ((agregar_warning r c m).df_limpio = r.df_limpio ∧
      (agregar_warning r c m).resumen = r.resumen) :=
  ⟨⟨rfl, rfl⟩, ⟨rfl, rfl⟩⟩

/-- A fold whose step preserves `df_limpio` and `resumen` preserves them. -/
theorem foldl_preserva {α : Type _} (step : ValidationResult → α → ValidationResult)
    (h : ∀ res a, (step res a).df_limpio = res.df_limpio ∧
      (step res a).resumen = res.resumen) :
    ∀ (l : List α) (res : ValidationResult),
      (l.foldl step res).df_limpio = res.df_limpio ∧
        (l.foldl step res).resumen = res.resumen := by
  intro l
  induction l with
  | nil => exact fun res => ⟨rfl, rfl⟩
  | cons a as ih =>
    intro res
    rw [List.foldl_cons]
    exact ⟨(ih (step res a)).1.trans (h res a).1,
      (ih (step res a)).2.trans (h res a).2⟩

/-- Same, for a fold that threads a result/table pair. -/
theorem foldl_preserva_par {α : Type _}
    (step : ValidationResult × Tabla → α → ValidationResult × Tabla)
    (h : ∀ p a, (step p a).1.df_limpio = p.1.df_limpio ∧
      (step p a).1.resumen = p.1.resumen) :
    ∀ (l : List α) (p : ValidationResult × Tabla),
      (l.foldl step p).1.df_limpio = p.1.df_limpio ∧
        (l.foldl step p).1.resumen = p.1.resumen := by
  intro l
  induction l with
  | nil => exact fun p => ⟨rfl, rfl⟩
  | cons a as ih =>
    intro p
    rw [List.foldl_cons]
    exact ⟨(ih (step p a)).1.trans (h p a).1, (ih (step p a)).2.trans (h p a).2⟩

/-- `_validar_reactivo` only appends errors and warnings: the cleaned-table
and summary fields pass through unchanged. -/
theorem validar_reactivo_preserva (t : Tabla) (r : ValidationResult) :
    (validar_reactivo t r).1.df_limpio = r.df_limpio ∧
      (validar_reactivo t r).1.resumen = r.resumen := by
  unfold validar_reactivo
  by_cases hf : 0 < ((COLUMNAS_REACTIVO.filter (fun p => p.1 ∉ t.cols)).map
      (fun p => p.1 ++ " (" ++ p.2 ++ ")")).length
  · rw [if_pos hf]
    exact ⟨rfl, rfl⟩
  · rw [if_neg hf]
    have step1 : ∀ res c, (paso_nulos t res c).df_limpio = res.df_limpio ∧
        (paso_nulos t res c).resumen = res.resumen := by
      intro res c
      show ((if 0 < (t.col c).countP (fun x => x.isNone) then
          agregar_warning res c _ else res).df_limpio = _) ∧
        ((if 0 < (t.col c).countP (fun x => x.isNone) then
          agregar_warning res c _ else res).resumen = _)
      split
      · exact ⟨rfl, rfl⟩
      · exact ⟨rfl, rfl⟩
    have step2 : ∀ res c, (paso_negativos t res c).df_limpio = res.df_limpio ∧
        (paso_negativos t res c).resumen = res.resumen := by
      intro res c
      show ((if 0 < (t.col c).countP (fun x =>
            match x with
            | some v => decide (v < 0)
            | none => false) then
          agregar_error res c _ else res).df_limpio = _) ∧
        ((if 0 < (t.col c).countP (fun x =>
            match x with
            | some v => decide (v < 0)
            | none => false) then
          agregar_error res c _ else res).resumen = _)
      split
      · exact ⟨rfl, rfl⟩
      · exact ⟨rfl, rfl⟩
    have h1 := foldl_preserva (paso_nulos t) step1 COLS_NUMERICAS_REACTIVO r
    have h2 := foldl_preserva (paso_negativos t) step2 COLS_NUMERICAS_REACTIVO
      (COLS_NUMERICAS_REACTIVO.foldl (paso_nulos t) r)
    constructor
    · dsimp only
      split
      · exact h2.1.trans h1.1
      · exact h2.1.trans h1.1
    · dsimp only
      split
      · exact h2.2.trans h1.2
      · exact h2.2.trans h1.2

/-- `_validar_proactivo` likewise passes the cleaned-table and summary
fields through unchanged. -/
theorem validar_proactivo_preserva (t : Tabla) (r : ValidationResult) :
    (validar_proactivo t r).1.df_limpio = r.df_limpio ∧
      (validar_proactivo t r).1.resumen = r.resumen := by
  unfold validar_proactivo
  by_cases hf : 0 < (["mes", "iart_real", "iart_programado"].filter
      (fun c => c ∉ t.cols)).length
  · rw [if_pos hf]
    exact ⟨rfl, rfl⟩
  · rw [if_neg hf]
    apply foldl_preserva_par
    intro p ind
    obtain ⟨res, tb⟩ := p
    dsimp only
    split
    · exact ⟨rfl, rfl⟩
    · split
      · exact ⟨rfl, rfl⟩
      · exact ⟨rfl, rfl⟩

/-- `validar_por_tipo` preserves the cleaned-table and summary fields. -/
theorem validar_por_tipo_preserva (tipo : TipoAnalisis) (t : Tabla)
    (r : ValidationResult) :
    (validar_por_tipo tipo t r).1.df_limpio = r.df_limpio ∧
      (validar_por_tipo tipo t r).1.resumen = r.resumen := by
  cases tipo with
  | reactivo => exact validar_reactivo_preserva t r
  | proactivo => exact validar_proactivo_preserva t r
  | ambos =>
    unfold validar_por_tipo
    dsimp only
    split
    · exact ⟨(validar_proactivo_preserva _ _).1.trans
        (validar_reactivo_preserva t r).1,
      (validar_proactivo_preserva _ _).2.trans
        (validar_reactivo_preserva t r).2⟩
    · exact validar_reactivo_preserva t r

end DataValidator

/-- **C10.** For every analysis kind and input table, `validar` attaches a
cleaned table only to a successful outcome: whenever any error was recorded
(`es_valido = false`), the returned `df_limpio` is `none` and the summary
is empty, so a caller can never obtain a cleaned table from a failed
validation. -/
theorem C10_sin_tabla_en_fallo (tipo : DataValidator.TipoAnalisis)
    (t? : Option DataValidator.Tabla)
    (h : (DataValidator.validar tipo t?).es_valido = false) :
    (DataValidator.validar tipo t?).df_limpio = none ∧
      (DataValidator.validar tipo t?).resumen = [] := by
  cases t? with
  | none => exact ⟨rfl, rfl⟩
  | some df =>
    by_cases hv : df.vacia
    · have hred : DataValidator.validar tipo (some df) =
          DataValidator.agregar_error { es_valido := true } "general"
            "El DataFrame está vacío o es nulo" := by
        simp [DataValidator.validar, hv]
      rw [hred]
      exact ⟨rfl, rfl⟩
    · have hpres := DataValidator.validar_por_tipo_preserva tipo
        (DataValidator.normalizar_columnas tipo df) { es_valido := true }
      by_cases hok : (DataValidator.validar_por_tipo tipo
          (DataValidator.normalizar_columnas tipo df)
          { es_valido := true }).1.es_valido
      · exfalso
        have : (DataValidator.validar tipo (some df)).es_valido = true := by
          simp only [DataValidator.validar, hv, Bool.false_eq_true,
            if_false, if_pos hok]
          exact hok
        rw [this] at h
        exact absurd h (by decide)
      · have : DataValidator.validar tipo (some df) =
            (DataValidator.validar_por_tipo tipo
              (DataValidator.normalizar_columnas tipo df)
              { es_valido := true }).1 := by
          simp only [DataValidator.validar, hv, Bool.false_eq_true,
            if_false, if_neg hok]
        rw [this]
        exact ⟨hpres.1, hpres.2⟩

/-- Witness for C10: validating a `None` table fails, and the failed outcome
carries no cleaned table and an empty summary. -/
theorem C10_sin_tabla_en_fallo_witness :
    (DataValidator.validar DataValidator.TipoAnalisis.reactivo none).es_valido
        = false ∧
    (DataValidator.validar DataValidator.TipoAnalisis.reactivo none).df_limpio
        = none ∧
    (DataValidator.validar DataValidator.TipoAnalisis.reactivo none).resumen
        = [] := by
  have h : (DataValidator.validar
      DataValidator.TipoAnalisis.reactivo none).es_valido = false := rfl
  have hc := C10_sin_tabla_en_fallo DataValidator.TipoAnalisis.reactivo none h
  exact ⟨h, hc.1, hc.2⟩

/-- **C9.** A nonempty table for reactive analysis whose normalised columns
contain `mes`, `horas_trabajadas` and `num_lesiones` but not
`dias_perdidos` fails validation with exactly one error, and that error
message names `dias_perdidos` (and only it). -/
theorem C9_error_unico_dias_perdidos (t : DataValidator.Tabla)
    (hne : t.vacia = false)
    (hmes : "mes" ∈ (DataValidator.normalizar_columnas
      DataValidator.TipoAnalisis.reactivo t).cols)
    (hhoras : "horas_trabajadas" ∈ (DataValidator.normalizar_columnas
      DataValidator.TipoAnalisis.reactivo t).cols)
    (hles : "num_lesiones" ∈ (DataValidator.normalizar_columnas
      DataValidator.TipoAnalisis.reactivo t).cols)
    (hdias : "dias_perdidos" ∉ (DataValidator.normalizar_columnas
      DataValidator.TipoAnalisis.reactivo t).cols) :
    (DataValidator.validar DataValidator.TipoAnalisis.reactivo
      (some t)).es_valido = false ∧
    (DataValidator.validar DataValidator.TipoAnalisis.reactivo
      (some t)).errores =
      [⟨"columnas",
        "Columnas faltantes para análisis REACTIVO: dias_perdidos (Días Perdidos por Incapacidad)",
        "error", none⟩] := by
  have hfil : DataValidator.COLUMNAS_REACTIVO.filter
      (fun p => p.1 ∉ (DataValidator.normalizar_columnas
        DataValidator.TipoAnalisis.reactivo t).cols) =
      [("dias_perdidos", "Días Perdidos por Incapacidad")] := by
    simp [DataValidator.COLUMNAS_REACTIVO, hmes, hhoras, hles, hdias]
  have hreac : DataValidator.validar_reactivo
      (DataValidator.normalizar_columnas DataValidator.TipoAnalisis.reactivo t)
      { es_valido := true } =
      (DataValidator.agregar_error { es_valido := true } "columnas"
        "Columnas faltantes para análisis REACTIVO: dias_perdidos (Días Perdidos por Incapacidad)",
       DataValidator.normalizar_columnas DataValidator.TipoAnalisis.reactivo t) := by
    unfold DataValidator.validar_reactivo
    rw [hfil]
    rw [if_pos (by norm_num)]
    exact congrArg
      (fun s => (DataValidator.agregar_error { es_valido := true } "columnas" s,
        DataValidator.normalizar_columnas DataValidator.TipoAnalisis.reactivo t))
      (by decide)
  have hval : DataValidator.validar DataValidator.TipoAnalisis.reactivo
      (some t) =
      DataValidator.agregar_error { es_valido := true } "columnas"
        "Columnas faltantes para análisis REACTIVO: dias_perdidos (Días Perdidos por Incapacidad)" := by
    have hpt : DataValidator.validar_por_tipo DataValidator.TipoAnalisis.reactivo
        (DataValidator.normalizar_columnas DataValidator.TipoAnalisis.reactivo t)
        { es_valido := true } =
        (DataValidator.agregar_error { es_valido := true } "columnas"
          "Columnas faltantes para análisis REACTIVO: dias_perdidos (Días Perdidos por Incapacidad)",
         DataValidator.normalizar_columnas DataValidator.TipoAnalisis.reactivo t) :=
      hreac
    simp only [DataValidator.validar, hne, Bool.false_eq_true, if_false, hpt]
    rfl
  rw [hval]
  exact ⟨rfl, rfl⟩

/-- Witness for C9 on a concrete table missing only `dias_perdidos`:
validation fails with that single error. -/
theorem C9_error_unico_dias_perdidos_witness :
    tablaSinDias.vacia = false ∧
    ("mes" ∈ (DataValidator.normalizar_columnas
      DataValidator.TipoAnalisis.reactivo tablaSinDias).cols ∧
     "horas_trabajadas" ∈ (DataValidator.normalizar_columnas
      DataValidator.TipoAnalisis.reactivo tablaSinDias).cols ∧
     "num_lesiones" ∈ (DataValidator.normalizar_columnas
      DataValidator.TipoAnalisis.reactivo tablaSinDias).cols ∧
     "dias_perdidos" ∉ (DataValidator.normalizar_columnas
      DataValidator.TipoAnalisis.reactivo tablaSinDias).cols) ∧
    (DataValidator.validar DataValidator.TipoAnalisis.reactivo
      (some tablaSinDias)).es_valido = false ∧
    (DataValidator.validar DataValidator.TipoAnalisis.reactivo
      (some tablaSinDias)).errores =
      [⟨"columnas",
        "Columnas faltantes para análisis REACTIVO: dias_perdidos (Días Perdidos por Incapacidad)",
        "error", none⟩] := by
  have hc := C9_error_unico_dias_perdidos tablaSinDias (by decide) (by decide)
    (by decide) (by decide) (by decide)
  exact ⟨by decide, ⟨by decide, by decide, by decide, by decide⟩, hc.1, hc.2⟩

/-- A month name ranked below 12 is the calendar month at that rank. -/
theorem mes_de_orden (k : ℕ) (hk : k < 12) (m : String)
    (h : ReactiveAnalyzer.mes_orden_de m = k) :
    m = ReactiveAnalyzer.MESES_ORDEN.getD k "" := by
  by_cases hm : m ∈ ReactiveAnalyzer.MESES_ORDEN
  · fin_cases hm <;> (subst h; decide)
  · unfold ReactiveAnalyzer.mes_orden_de at h
    rw [if_neg hm] at h
    omega

/-- Under a full-calendar input, `_preparar_datos_base` yields rows whose
ordering ranks are exactly `0..11` in order, each rank being the rank of the
row's own month name. -/
theorem preparar_base_claves (rows : List ReactiveAnalyzer.EntradaReactiva)
    (hperm : List.Perm (rows.map (fun r => normalizar_mes r.mes))
      ReactiveAnalyzer.MESES_ORDEN) :
    (ReactiveAnalyzer.preparar_datos_base rows).map
        ReactiveAnalyzer.Fila.mes_orden =
      [0, 1, 2, 3, 4, 5, 6, 7, 8, 9, 10, 11] ∧
    ∀ f ∈ ReactiveAnalyzer.preparar_datos_base rows,
      f.mes_orden = ReactiveAnalyzer.mes_orden_de f.mes := by
  have hmemsort : ∀ f ∈ ReactiveAnalyzer.preparar_datos_base rows,
      f.mes_orden = ReactiveAnalyzer.mes_orden_de f.mes := by
    intro f hf
    have hf' : f ∈ rows.map ReactiveAnalyzer.preparar_fila :=
      List.mem_mergeSort.mp hf
    obtain ⟨r, _, rfl⟩ := List.mem_map.mp hf'
    rfl
  refine ⟨?_, hmemsort⟩
  have hperm1 : List.Perm ((ReactiveAnalyzer.preparar_datos_base rows).map
      ReactiveAnalyzer.Fila.mes) ReactiveAnalyzer.MESES_ORDEN := by
    have h1 : (rows.map ReactiveAnalyzer.preparar_fila).map
        ReactiveAnalyzer.Fila.mes =
        rows.map (fun r => normalizar_mes r.mes) := by
      rw [List.map_map]
      rfl
    have h2 : List.Perm ((ReactiveAnalyzer.preparar_datos_base rows).map
        ReactiveAnalyzer.Fila.mes)
        ((rows.map ReactiveAnalyzer.preparar_fila).map
          ReactiveAnalyzer.Fila.mes) :=
      (List.mergeSort_perm _ _).map _
    rw [h1] at h2
    exact h2.trans hperm
  have hpairb : (ReactiveAnalyzer.preparar_datos_base rows).Pairwise
      (fun a b => a.mes_orden ≤ b.mes_orden) := by
    have hs := @List.sorted_mergeSort ReactiveAnalyzer.Fila
      (fun a b => decide (a.mes_orden ≤ b.mes_orden))
      (fun a b c hab hbc => by
        simp only [decide_eq_true_eq] at *
        omega)
      (fun a b => by
        simp only [Bool.or_eq_true, decide_eq_true_eq]
        omega)
      (rows.map ReactiveAnalyzer.preparar_fila)
    exact hs.imp (fun h => of_decide_eq_true h)
  have hsorted : List.Sorted (· ≤ ·)
      ((ReactiveAnalyzer.preparar_datos_base rows).map
        ReactiveAnalyzer.Fila.mes_orden) :=
    List.pairwise_map.mpr hpairb
  have hkeys : (ReactiveAnalyzer.preparar_datos_base rows).map
      ReactiveAnalyzer.Fila.mes_orden =
      ((ReactiveAnalyzer.preparar_datos_base rows).map
        ReactiveAnalyzer.Fila.mes).map ReactiveAnalyzer.mes_orden_de := by
    rw [List.map_map]
    exact List.map_congr_left hmemsort
  have hpermk : List.Perm ((ReactiveAnalyzer.preparar_datos_base rows).map
      ReactiveAnalyzer.Fila.mes_orden)
      [0, 1, 2, 3, 4, 5, 6, 7, 8, 9, 10, 11] := by
    rw [hkeys]
    have h3 := hperm1.map ReactiveAnalyzer.mes_orden_de
    rw [show ReactiveAnalyzer.MESES_ORDEN.map ReactiveAnalyzer.mes_orden_de =
      [0, 1, 2, 3, 4, 5, 6, 7, 8, 9, 10, 11] from by decide] at h3
    exact h3
  exact List.eq_of_perm_of_sorted hpermk hsorted (by decide)

/-- **C6 (amended).** For a reactive input containing the twelve calendar
months, the report consists of the 12 month rows, 4 quarter rows and 1
annual row, and the chart table is exactly the month-only subset of the
report, in calendar order; but the report interleaving is not the one the
claim states.  Each quarter row carries rank `quarter*3` (3, 6, 9, 12),
tying with the first month of the following quarter (abril, julio,
octubre), and the final sort is numpy's unstable introsort: the 17-row
assembly exceeds `SMALL_QUICKSORT`, one partition runs with the median
element — julio, rank 6 — as pivot, and the pivot swap emits julio *before*
the SEGUNDO TRIMESTRE row (the Q1/abril and Q3/octubre ties, resolved
inside the insertion-sorted partitions, keep assembly order).  The months
still precede their own quarter row (their ranks are strictly smaller), the
annual row is still last, but the second-quarter row follows julio. -/
theorem C6_estructura_reporte (st : ReactiveAnalyzer.State)
    (cols : List String) (rows : List ReactiveAnalyzer.EntradaReactiva)
    (hcols : ReactiveAnalyzer.validar_columnas (cols.map normalizar_col) = [])
    (hperm : List.Perm (rows.map (fun r => normalizar_mes r.mes))
      ReactiveAnalyzer.MESES_ORDEN) :
    ∃ reporte charts,
      (ReactiveAnalyzer.procesar st cols rows).2 = .ok (reporte, charts) ∧
      reporte.map ReactiveAnalyzer.Fila.tipo_fila =
        ["mes", "mes", "mes", "trimestre", "mes", "mes", "mes", "mes",
         "trimestre", "mes", "mes", "trimestre", "mes", "mes", "mes",
         "trimestre", "anual"] ∧
      reporte.map ReactiveAnalyzer.Fila.mes_orden =
        [0, 1, 2, 3, 3, 4, 5, 6, 6, 7, 8, 9, 9, 10, 11, 12, 99] ∧
      charts = reporte.filter (fun f => f.tipo_fila = "mes") ∧
      charts = ReactiveAnalyzer.calcular_indices_meses
        (ReactiveAnalyzer.preparar_datos_base rows) ∧
      charts.map ReactiveAnalyzer.Fila.mes_orden =
        [0, 1, 2, 3, 4, 5, 6, 7, 8, 9, 10, 11] := by
  obtain ⟨hkeys, hmo⟩ := preparar_base_claves rows hperm
  obtain ⟨dfb, hdfb⟩ : ∃ l, ReactiveAnalyzer.preparar_datos_base rows = l :=
    ⟨_, rfl⟩
  rw [hdfb] at hkeys hmo
  rcases dfb with _ | ⟨f0, dfb⟩
  · simp at hkeys
  rcases dfb with _ | ⟨f1, dfb⟩
  · simp at hkeys
  rcases dfb with _ | ⟨f2, dfb⟩
  · simp at hkeys
  rcases dfb with _ | ⟨f3, dfb⟩
  · simp at hkeys
  rcases dfb with _ | ⟨f4, dfb⟩
  · simp at hkeys
  rcases dfb with _ | ⟨f5, dfb⟩
  · simp at hkeys
  rcases dfb with _ | ⟨f6, dfb⟩
  · simp at hkeys
  rcases dfb with _ | ⟨f7, dfb⟩
  · simp at hkeys
  rcases dfb with _ | ⟨f8, dfb⟩
  · simp at hkeys
  rcases dfb with _ | ⟨f9, dfb⟩
  · simp at hkeys
  rcases dfb with _ | ⟨f10, dfb⟩
  · simp at hkeys
  rcases dfb with _ | ⟨f11, dfb⟩
  · simp at hkeys
  rcases dfb with _ | ⟨f12, dfb⟩
  swap
  · simp at hkeys
  simp only [List.map_cons, List.map_nil, List.cons.injEq, and_true] at hkeys
  obtain ⟨o0, o1, o2, o3, o4, o5, o6, o7, o8, o9, o10, o11⟩ := hkeys
  have hmes : ∀ (f : ReactiveAnalyzer.Fila) (k : ℕ), k < 12 →
      f ∈ [f0, f1, f2, f3, f4, f5, f6, f7, f8, f9, f10, f11] →
      f.mes_orden = k → f.mes = ReactiveAnalyzer.MESES_ORDEN.getD k "" := by
    intro f k hk hf ho
    exact mes_de_orden k hk f.mes (by rw [← hmo f hf, ho])
  have hm0 : f0.mes = "enero" := hmes f0 0 (by omega) (by simp) o0
  have hm1 : f1.mes = "febrero" := hmes f1 1 (by omega) (by simp) o1
  have hm2 : f2.mes = "marzo" := hmes f2 2 (by omega) (by simp) o2
  have hm3 : f3.mes = "abril" := hmes f3 3 (by omega) (by simp) o3
  have hm4 : f4.mes = "mayo" := hmes f4 4 (by omega) (by simp) o4
  have hm5 : f5.mes = "junio" := hmes f5 5 (by omega) (by simp) o5
  have hm6 : f6.mes = "julio" := hmes f6 6 (by omega) (by simp) o6
  have hm7 : f7.mes = "agosto" := hmes f7 7 (by omega) (by simp) o7
  have hm8 : f8.mes = "septiembre" := hmes f8 8 (by omega) (by simp) o8
  have hm9 : f9.mes = "octubre" := hmes f9 9 (by omega) (by simp) o9
  have hm10 : f10.mes = "noviembre" := hmes f10 10 (by omega) (by simp) o10
  have hm11 : f11.mes = "diciembre" := hmes f11 11 (by omega) (by simp) o11
  have hcm : ∀ f, (ReactiveAnalyzer.calcular_indices_fila f).mes = f.mes :=
    fun f => rfl
  have hco : ∀ f, (ReactiveAnalyzer.calcular_indices_fila f).mes_orden =
      f.mes_orden := fun f => rfl
  have hct : ∀ f, (ReactiveAnalyzer.calcular_indices_fila f).tipo_fila =
      "mes" := fun f => rfl
  have hcrt : ∀ l n t k o, (ReactiveAnalyzer.crear_fila_resumen l n t k o).tipo_fila
      = t := fun l n t k o => rfl
  have hcro : ∀ l n t k o, (ReactiveAnalyzer.crear_fila_resumen l n t k o).mes_orden
      = o := fun l n t k o => rfl
  have hfil1 : ([f0, f1, f2, f3, f4, f5, f6, f7, f8, f9, f10, f11].map
      ReactiveAnalyzer.calcular_indices_fila).filter
      (fun f => f.mes ∈ ["enero", "febrero", "marzo"]) =
      [ReactiveAnalyzer.calcular_indices_fila f0,
       ReactiveAnalyzer.calcular_indices_fila f1,
       ReactiveAnalyzer.calcular_indices_fila f2] := by
    simp only [List.map_cons, List.map_nil, List.filter_cons, List.filter_nil,
      hcm, hm0, hm1, hm2, hm3, hm4, hm5, hm6, hm7, hm8, hm9, hm10, hm11]
    simp
  have hfil2 : ([f0, f1, f2, f3, f4, f5, f6, f7, f8, f9, f10, f11].map
      ReactiveAnalyzer.calcular_indices_fila).filter
      (fun f => f.mes ∈ ["abril", "mayo", "junio"]) =
      [ReactiveAnalyzer.calcular_indices_fila f3,
       ReactiveAnalyzer.calcular_indices_fila f4,
       ReactiveAnalyzer.calcular_indices_fila f5] := by
    simp only [List.map_cons, List.map_nil, List.filter_cons, List.filter_nil,
      hcm, hm0, hm1, hm2, hm3, hm4, hm5, hm6, hm7, hm8, hm9, hm10, hm11]
    simp
  have hfil3 : ([f0, f1, f2, f3, f4, f5, f6, f7, f8, f9, f10, f11].map
      ReactiveAnalyzer.calcular_indices_fila).filter
      (fun f => f.mes ∈ ["julio", "agosto", "septiembre"]) =
      [ReactiveAnalyzer.calcular_indices_fila f6,
       ReactiveAnalyzer.calcular_indices_fila f7,
       ReactiveAnalyzer.calcular_indices_fila f8] := by
    simp only [List.map_cons, List.map_nil, List.filter_cons, List.filter_nil,
      hcm, hm0, hm1, hm2, hm3, hm4, hm5, hm6, hm7, hm8, hm9, hm10, hm11]
    simp
  have hfil4 : ([f0, f1, f2, f3, f4, f5, f6, f7, f8, f9, f10, f11].map
      ReactiveAnalyzer.calcular_indices_fila).filter
      (fun f => f.mes ∈ ["octubre", "noviembre", "diciembre"]) =
      [ReactiveAnalyzer.calcular_indices_fila f9,
       ReactiveAnalyzer.calcular_indices_fila f10,
       ReactiveAnalyzer.calcular_indices_fila f11] := by
    simp only [List.map_cons, List.map_nil, List.filter_cons, List.filter_nil,
      hcm, hm0, hm1, hm2, hm3, hm4, hm5, hm6, hm7, hm8, hm9, hm10, hm11]
    simp
  have hkeyL : ∀ L : List ReactiveAnalyzer.Fila,
      L = [ReactiveAnalyzer.calcular_indices_fila f0,
        ReactiveAnalyzer.calcular_indices_fila f1,
        ReactiveAnalyzer.calcular_indices_fila f2,
        ReactiveAnalyzer.crear_fila_resumen
          [ReactiveAnalyzer.calcular_indices_fila f0,
           ReactiveAnalyzer.calcular_indices_fila f1,
           ReactiveAnalyzer.calcular_indices_fila f2]
          "PRIMER TRIMESTRE" "trimestre" ReactiveAnalyzer.K_TRIMESTRAL 3,
        ReactiveAnalyzer.calcular_indices_fila f3,
        ReactiveAnalyzer.calcular_indices_fila f4,
        ReactiveAnalyzer.calcular_indices_fila f5,
        ReactiveAnalyzer.crear_fila_resumen
          [ReactiveAnalyzer.calcular_indices_fila f3,
           ReactiveAnalyzer.calcular_indices_fila f4,
           ReactiveAnalyzer.calcular_indices_fila f5]
          "SEGUNDO TRIMESTRE" "trimestre" ReactiveAnalyzer.K_TRIMESTRAL 6,
        ReactiveAnalyzer.calcular_indices_fila f6,
        ReactiveAnalyzer.calcular_indices_fila f7,
        ReactiveAnalyzer.calcular_indices_fila f8,
        ReactiveAnalyzer.crear_fila_resumen
          [ReactiveAnalyzer.calcular_indices_fila f6,
           ReactiveAnalyzer.calcular_indices_fila f7,
           ReactiveAnalyzer.calcular_indices_fila f8]
          "TERCER TRIMESTRE" "trimestre" ReactiveAnalyzer.K_TRIMESTRAL 9,
        ReactiveAnalyzer.calcular_indices_fila f9,
        ReactiveAnalyzer.calcular_indices_fila f10,
        ReactiveAnalyzer.calcular_indices_fila f11,
        ReactiveAnalyzer.crear_fila_resumen
          [ReactiveAnalyzer.calcular_indices_fila f9,
           ReactiveAnalyzer.calcular_indices_fila f10,
           ReactiveAnalyzer.calcular_indices_fila f11]
          "CUARTO TRIMESTRE" "trimestre" ReactiveAnalyzer.K_TRIMESTRAL 12,
        ReactiveAnalyzer.crear_fila_resumen
          ([f0, f1, f2, f3, f4, f5, f6, f7, f8, f9, f10, f11].map
            ReactiveAnalyzer.calcular_indices_fila)
          "TOTAL AÑO" "anual" ReactiveAnalyzer.K_ANUAL 99] →
      L.map ReactiveAnalyzer.Fila.mes_orden =
        [0, 1, 2, 3, 3, 4, 5, 6, 6, 7, 8, 9, 9, 10, 11, 12, 99] := by
    intro L hL
    subst hL
    simp only [List.map_cons, List.map_nil, hco, hcro, o0, o1, o2, o3, o4,
      o5, o6, o7, o8, o9, o10, o11]
  have hins : ReactiveAnalyzer.insertar_resumenes
      ([f0, f1, f2, f3, f4, f5, f6, f7, f8, f9, f10, f11].map
        ReactiveAnalyzer.calcular_indices_fila) =
      [ReactiveAnalyzer.calcular_indices_fila f0,
        ReactiveAnalyzer.calcular_indices_fila f1,
        ReactiveAnalyzer.calcular_indices_fila f2,
        ReactiveAnalyzer.crear_fila_resumen
          [ReactiveAnalyzer.calcular_indices_fila f0,
           ReactiveAnalyzer.calcular_indices_fila f1,
           ReactiveAnalyzer.calcular_indices_fila f2]
          "PRIMER TRIMESTRE" "trimestre" ReactiveAnalyzer.K_TRIMESTRAL 3,
        ReactiveAnalyzer.calcular_indices_fila f3,
        ReactiveAnalyzer.calcular_indices_fila f4,
        ReactiveAnalyzer.calcular_indices_fila f5,
        ReactiveAnalyzer.calcular_indices_fila f6,
        ReactiveAnalyzer.crear_fila_resumen
          [ReactiveAnalyzer.calcular_indices_fila f3,
           ReactiveAnalyzer.calcular_indices_fila f4,
           ReactiveAnalyzer.calcular_indices_fila f5]
          "SEGUNDO TRIMESTRE" "trimestre" ReactiveAnalyzer.K_TRIMESTRAL 6,
        ReactiveAnalyzer.calcular_indices_fila f7,
        ReactiveAnalyzer.calcular_indices_fila f8,
        ReactiveAnalyzer.crear_fila_resumen
          [ReactiveAnalyzer.calcular_indices_fila f6,
           ReactiveAnalyzer.calcular_indices_fila f7,
           ReactiveAnalyzer.calcular_indices_fila f8]
          "TERCER TRIMESTRE" "trimestre" ReactiveAnalyzer.K_TRIMESTRAL 9,
        ReactiveAnalyzer.calcular_indices_fila f9,
        ReactiveAnalyzer.calcular_indices_fila f10,
        ReactiveAnalyzer.calcular_indices_fila f11,
        ReactiveAnalyzer.crear_fila_resumen
          [ReactiveAnalyzer.calcular_indices_fila f9,
           ReactiveAnalyzer.calcular_indices_fila f10,
           ReactiveAnalyzer.calcular_indices_fila f11]
          "CUARTO TRIMESTRE" "trimestre" ReactiveAnalyzer.K_TRIMESTRAL 12,
        ReactiveAnalyzer.crear_fila_resumen
          ([f0, f1, f2, f3, f4, f5, f6, f7, f8, f9, f10, f11].map
            ReactiveAnalyzer.calcular_indices_fila)
          "TOTAL AÑO" "anual" ReactiveAnalyzer.K_ANUAL 99] := by
    unfold ReactiveAnalyzer.insertar_resumenes
    rw [show ReactiveAnalyzer.TRIMESTRES =
      [(1, "PRIMER TRIMESTRE", ["enero", "febrero", "marzo"]),
       (2, "SEGUNDO TRIMESTRE", ["abril", "mayo", "junio"]),
       (3, "TERCER TRIMESTRE", ["julio", "agosto", "septiembre"]),
       (4, "CUARTO TRIMESTRE", ["octubre", "noviembre", "diciembre"])] from rfl]
    simp only [List.foldl_cons, List.foldl_nil]
    unfold ReactiveAnalyzer.bloque_trimestre
    dsimp only
    rw [hfil1, hfil2, hfil3, hfil4]
    simp only [List.length_cons, List.length_nil, Nat.zero_lt_succ, if_true,
      List.nil_append, List.cons_append, List.append_nil, Nat.reduceMul]
    rw [hkeyL _ rfl]
    rw [show np_argsort [0, 1, 2, 3, 3, 4, 5, 6, 6, 7, 8, 9, 9, 10, 11, 12, 99]
      = [0, 1, 2, 3, 4, 5, 6, 8, 7, 9, 10, 11, 12, 13, 14, 15, 16]
      from by decide]
    rfl
  have hcim : ReactiveAnalyzer.calcular_indices_meses
      [f0, f1, f2, f3, f4, f5, f6, f7, f8, f9, f10, f11] =
      [f0, f1, f2, f3, f4, f5, f6, f7, f8, f9, f10, f11].map
        ReactiveAnalyzer.calcular_indices_fila := rfl
  have htipo : (ReactiveAnalyzer.insertar_resumenes
      ([f0, f1, f2, f3, f4, f5, f6, f7, f8, f9, f10, f11].map
        ReactiveAnalyzer.calcular_indices_fila)).map
      ReactiveAnalyzer.Fila.tipo_fila =
      ["mes", "mes", "mes", "trimestre", "mes", "mes", "mes", "mes",
       "trimestre", "mes", "mes", "trimestre", "mes", "mes", "mes",
       "trimestre", "anual"] := by
    rw [hins]
    simp only [List.map_cons, List.map_nil, hct, hcrt]
  have hfilmes : (ReactiveAnalyzer.insertar_resumenes
      ([f0, f1, f2, f3, f4, f5, f6, f7, f8, f9, f10, f11].map
        ReactiveAnalyzer.calcular_indices_fila)).filter
      (fun f => f.tipo_fila = "mes") =
      [f0, f1, f2, f3, f4, f5, f6, f7, f8, f9, f10, f11].map
        ReactiveAnalyzer.calcular_indices_fila := by
    rw [hins]
    simp only [List.filter_cons, List.filter_nil, hct, hcrt, List.map_cons,
      List.map_nil]
    simp
  have hkeyM : ((ReactiveAnalyzer.insertar_resumenes
      ([f0, f1, f2, f3, f4, f5, f6, f7, f8, f9, f10, f11].map
        ReactiveAnalyzer.calcular_indices_fila)).filter
      (fun f => f.tipo_fila = "mes")).map ReactiveAnalyzer.Fila.mes_orden =
      [0, 1, 2, 3, 4, 5, 6, 7, 8, 9, 10, 11] := by
    rw [hfilmes]
    simp only [List.map_cons, List.map_nil, hco, o0, o1, o2, o3, o4, o5, o6,
      o7, o8, o9, o10, o11]
  have hl : ¬ 0 < (ReactiveAnalyzer.validar_columnas
      (cols.map normalizar_col)).length := by
    rw [hcols]
    simp
  have hproc : (ReactiveAnalyzer.procesar st cols rows).2 =
      .ok (ReactiveAnalyzer.insertar_resumenes
        (ReactiveAnalyzer.calcular_indices_meses
          (ReactiveAnalyzer.preparar_datos_base rows)),
        (ReactiveAnalyzer.insertar_resumenes
          (ReactiveAnalyzer.calcular_indices_meses
            (ReactiveAnalyzer.preparar_datos_base rows))).filter
          (fun f => f.tipo_fila = "mes")) := by
    simp only [ReactiveAnalyzer.procesar, if_neg hl]
  refine ⟨ReactiveAnalyzer.insertar_resumenes
      (ReactiveAnalyzer.calcular_indices_meses
        (ReactiveAnalyzer.preparar_datos_base rows)),
    (ReactiveAnalyzer.insertar_resumenes
      (ReactiveAnalyzer.calcular_indices_meses
        (ReactiveAnalyzer.preparar_datos_base rows))).filter
      (fun f => f.tipo_fila = "mes"),
    hproc, ?_, ?_, rfl, ?_, ?_⟩
  · rw [hdfb, hcim]
    exact htipo
  · rw [hdfb, hcim, hins]
    simp only [List.map_cons, List.map_nil, hco, hcro, o0, o1, o2, o3, o4,
      o5, o6, o7, o8, o9, o10, o11]
  · rw [hdfb, hcim]
    exact hfilmes
  · rw [hdfb, hcim]
    exact hkeyM

/-- Witness for the amended C6: the scrambled full-year demo input
satisfies the hypotheses and the amended report-structure conclusion
(julio precedes the second-quarter row). -/
theorem C6_estructura_reporte_witness :
    ReactiveAnalyzer.validar_columnas (colsDemo.map normalizar_col) = [] ∧
    List.Perm (filasDemo.map (fun r => normalizar_mes r.mes))
      ReactiveAnalyzer.MESES_ORDEN ∧
    (∃ reporte charts,
      (ReactiveAnalyzer.procesar {} colsDemo filasDemo).2 =
        .ok (reporte, charts) ∧
      reporte.map ReactiveAnalyzer.Fila.tipo_fila =
        ["mes", "mes", "mes", "trimestre", "mes", "mes", "mes", "mes",
         "trimestre", "mes", "mes", "trimestre", "mes", "mes", "mes",
         "trimestre", "anual"] ∧
      reporte.map ReactiveAnalyzer.Fila.mes_orden =
        [0, 1, 2, 3, 3, 4, 5, 6, 6, 7, 8, 9, 9, 10, 11, 12, 99] ∧
      charts = reporte.filter (fun f => f.tipo_fila = "mes") ∧
      charts = ReactiveAnalyzer.calcular_indices_meses
        (ReactiveAnalyzer.preparar_datos_base filasDemo) ∧
      charts.map ReactiveAnalyzer.Fila.mes_orden =
        [0, 1, 2, 3, 4, 5, 6, 7, 8, 9, 10, 11]) :=
  ⟨by decide, by decide,
   C6_estructura_reporte {} colsDemo filasDemo (by decide) (by decide)⟩

/-- Counterexample to C6 as stated: on the full-calendar demo input the
report's row-kind sequence puts the julio month row (rank 6) *before* the
SEGUNDO TRIMESTRE row (also rank 6) — numpy's introsort picks julio, the
middle element, as pivot — so the claimed interleaving, in which every
quarter row precedes the following quarter's months, does not hold. -/
theorem C6_contraejemplo :
    ∃ reporte charts,
      (ReactiveAnalyzer.procesar {} colsDemo filasDemo).2 =
        .ok (reporte, charts) ∧
      reporte.map ReactiveAnalyzer.Fila.tipo_fila =
        ["mes", "mes", "mes", "trimestre", "mes", "mes", "mes", "mes",
         "trimestre", "mes", "mes", "trimestre", "mes", "mes", "mes",
         "trimestre", "anual"] ∧
      reporte.map ReactiveAnalyzer.Fila.tipo_fila ≠
        ["mes", "mes", "mes", "trimestre", "mes", "mes", "mes", "trimestre",
         "mes", "mes", "mes", "trimestre", "mes", "mes", "mes", "trimestre",
         "anual"] := by
  obtain ⟨reporte, charts, hok, htipo, _⟩ :=
    C6_estructura_reporte {} colsDemo filasDemo (by decide) (by decide)
  refine ⟨reporte, charts, hok, htipo, ?_⟩
  rw [htipo]
  decide
